import Mathlib

/-!
Verification of the pKVM S2MPU driver
(`arch/arm64/kvm/hyp/nvhe/iommu/s2mpu.c`).

The driver is embedded shallowly: MMIO traffic is recorded as a trace of
read/write events, hardware-supplied values (register reads) are provided
by explicit oracle parameters, and the mutable driver state
(`struct s2mpu_drv_data`, the global `host_mpt`, the set of pages donated
to the hypervisor) is threaded explicitly.

Numeric values of register offsets, bit masks and version codes live in
`asm/kvm_s2mpu.h`, which is not part of this repository snapshot; those
constants are modelled (distinct offsets, non-zero masks) and are marked
`Modelled from the spec:` below.  No claim proved here depends on the
particular numeric values beyond distinctness and non-emptiness of the
masks.
-/

namespace S2mpu

/-! ## Constants defined in the source file itself -/

def SYNC_MAX_RETRIES : Nat := 5
def SYNC_TIMEOUT : Nat := 5
def SYNC_TIMEOUT_MULTIPLIER : Nat := 3

def SZ_1G : Nat := 2 ^ 30

/-- Modelled from the spec: `NR_GIGABYTES` is a platform constant from the
missing header; the spec's bring-up scenario uses 4. -/
def NR_GIGABYTES : Nat := 4

/-- `PA_MAX = SZ_1G * NR_GIGABYTES` (source line 26). -/
def PA_MAX : Nat := SZ_1G * NR_GIGABYTES

/-- Modelled from the spec: `SMPT_GRAN` is a platform constant (minimum
addressable unit of an SMPT entry); a 4 KiB page is used here. -/
def SMPT_GRAN : Nat := 2 ^ 12

/-! ## Register offsets and masks

Modelled from the spec: the numeric offsets below stand in for the
`REG_NS_*` constants of `asm/kvm_s2mpu.h` (absent from the snapshot).
They are chosen pairwise distinct, with the `L1ENTRY` block and the
per-VID fault block laid out as strided arrays the way the source
arithmetic (`REG_NS_FAULT_VID_MASK`, the `L1ENTRY` range check) expects,
and with the v9 block disjoint from the v1/v2 blocks. -/

def REG_NS_CTRL0 : Nat := 0x0
def REG_NS_CTRL1 : Nat := 0x4
def REG_NS_CFG : Nat := 0x10
def REG_NS_INTERRUPT_ENABLE_PER_VID_SET : Nat := 0x20
def REG_NS_INTERRUPT_CLEAR : Nat := 0x2C
def REG_NS_VERSION : Nat := 0x60
def REG_NS_INFO : Nat := 0x64
def REG_NS_STATUS : Nat := 0x68
def REG_NS_NUM_CONTEXT : Nat := 0x100
def REG_NS_CONTEXT_CFG_VALID_VID : Nat := 0x104
def REG_NS_ALL_INVALIDATION : Nat := 0x1000
def REG_NS_RANGE_INVALIDATION : Nat := 0x1010
def REG_NS_RANGE_INVALIDATION_START_PPN : Nat := 0x1014
def REG_NS_RANGE_INVALIDATION_END_PPN : Nat := 0x1018
def REG_NS_FAULT_STATUS : Nat := 0x2000
def REG_NS_FAULT_VID_MASK : Nat := 0xE0
def REG_NS_FAULT_PA_LOW (vid : Nat) : Nat := 0x2100 + 0x20 * vid
def REG_NS_FAULT_PA_HIGH (vid : Nat) : Nat := 0x2104 + 0x20 * vid
def REG_NS_FAULT_INFO (vid : Nat) : Nat := 0x2108 + 0x20 * vid
def REG_NS_READ_MPTC : Nat := 0x3000
def REG_NS_READ_MPTC_TAG_PPN : Nat := 0x3004
def REG_NS_READ_MPTC_TAG_OTHERS : Nat := 0x3008
def REG_NS_READ_MPTC_DATA : Nat := 0x300C
def REG_NS_L1ENTRY_L2TABLE_ADDR (vid gb : Nat) : Nat := 0x4000 + 0x200 * vid + 8 * gb
def REG_NS_L1ENTRY_ATTR (vid gb : Nat) : Nat := 0x4004 + 0x200 * vid + 8 * gb

/-- SysMMU_SYNC child-device registers. -/
def REG_NS_SYNC_CMD : Nat := 0x400
def REG_NS_SYNC_COMP : Nat := 0x404

def REG_NS_V9_CTRL_ERR_RESP_T_PER_VID_SET : Nat := 0x6000
def REG_NS_V9_CTRL_PROT_EN_PER_VID_SET : Nat := 0x6010
def REG_NS_V9_CFG_MPTW_ATTRIBUTE : Nat := 0x6020
def REG_NS_V9_READ_STLB : Nat := 0x6100
def REG_NS_V9_READ_STLB_TPN : Nat := 0x6104
def REG_NS_V9_READ_STLB_TAG_PPN : Nat := 0x6108
def REG_NS_V9_READ_STLB_TAG_OTHERS : Nat := 0x610C
def REG_NS_V9_READ_STLB_DATA : Nat := 0x6110
def REG_NS_V9_MPTC_INFO : Nat := 0x6200
def REG_NS_V9_READ_MPTC : Nat := 0x6204
def REG_NS_V9_READ_MPTC_TAG_PPN : Nat := 0x6208
def REG_NS_V9_READ_MPTC_TAG_OTHERS : Nat := 0x620C
def REG_NS_V9_READ_MPTC_DATA : Nat := 0x6210
def REG_NS_V9_PMMU_INFO : Nat := 0x6300
def REG_NS_V9_READ_PTLB : Nat := 0x6304
def REG_NS_V9_READ_PTLB_TAG : Nat := 0x6308
def REG_NS_V9_READ_PTLB_DATA_S1_EN_PPN_AP : Nat := 0x630C
def REG_NS_V9_READ_PTLB_DATA_S1_DIS_AP_LIST : Nat := 0x6310
def REG_NS_V9_PMMU_INDICATOR : Nat := 0x6314
def REG_NS_V9_SWALKER_INFO : Nat := 0x6318
def REG_NS_V9_PMMU_PTLB_INFO (i : Nat) : Nat := 0x6400 + 4 * i
def REG_NS_V9_STLB_INFO (i : Nat) : Nat := 0x6500 + 4 * i

def V9_MAX_PTLB_NUM : Nat := 16
def V9_MAX_STLB_NUM : Nat := 16

/-- Modelled from the spec: 8 VIDs, so `ALL_VIDS_BITMAP` has the low 8 bits
set. -/
def ALL_VIDS_BITMAP : Nat := 0xFF
def NR_VIDS : Nat := 8
def NR_CTX_IDS : Nat := 8
def NUM_CONTEXT_MASK : Nat := 0xFF

/-- Modelled from the spec: register access masks from the missing header.
The exact bit widths are unspecified; all are non-zero. -/
def CTRL0_MASK : Nat := 0xFF
def CTRL1_MASK : Nat := 0xFF
def CFG_MASK : Nat := 0xFF
def INFO_NUM_SET_MASK : Nat := 0xFFFF
def READ_MPTC_MASK : Nat := 0xFFFFF
def READ_MPTC_TAG_PPN_MASK : Nat := 0xFFFFFF
def READ_MPTC_TAG_OTHERS_MASK : Nat := 0xFFFF
def V9_CTRL0_MASK : Nat := 0xFF
def V9_READ_STLB_MASK_TYPEA : Nat := 0xFFFF
def V9_READ_STLB_MASK_TYPEB : Nat := 0xFF0000
def V9_READ_STLB_TPN_MASK : Nat := 0xFFFFFF
def V9_READ_STLB_TAG_PPN_MASK : Nat := 0xFFFFFF
def V9_READ_STLB_TAG_OTHERS_MASK : Nat := 0xFFFF
def V9_READ_MPTC_INFO_MASK : Nat := 0xFFFF
def V9_READ_MPTC_MASK : Nat := 0xFFFFF
def V9_READ_MPTC_TAG_PPN_MASK : Nat := 0xFFFFFF
def V9_READ_MPTC_TAG_OTHERS_MASK : Nat := 0xFFFF
def V9_READ_PMMU_INFO_MASK : Nat := 0xFFFF
def V9_READ_PTLB_MASK : Nat := 0xFFFFF
def V9_READ_PTLB_TAG_MASK : Nat := 0xFFFFFF
def V9_READ_PTLB_DATA_S1_ENABLE_PPN_AP_MASK : Nat := 0xFFFFFF
def V9_READ_PMMU_INDICATOR_MASK : Nat := 0xFF
def V9_SWALKER_INFO_MASK : Nat := 0xFFFF
def V9_READ_PMMU_PTLB_INFO_MASK : Nat := 0xFFFF
def V9_READ_SLTB_INFO_MASK : Nat := 0xFFFF

/-- Modelled from the spec: control-register bit fields (missing header). -/
def CTRL0_ENABLE : Nat := 0x1
def CTRL0_INTERRUPT_ENABLE : Nat := 0x2
def CTRL0_FAULT_RESP_TYPE_SLVERR : Nat := 0x8
def CTRL0_FAULT_RESP_TYPE_DECERR : Nat := 0x10
def STATUS_BUSY : Nat := 0x1
def STATUS_ON_INVALIDATING : Nat := 0x2
def SYNC_CMD_SYNC : Nat := 0x1
def SYNC_COMP_COMPLETE : Nat := 0x1
def INVALIDATION_INVALIDATE : Nat := 0x1
def RANGE_INVALIDATION_PPN_SHIFT : Nat := 12

/-- Modelled from the spec: hardware version codes and the check mask
(missing header). -/
def VERSION_CHECK_MASK : Nat := 0xFF000000
def S2MPU_VERSION_1 : Nat := 0x10000000
def S2MPU_VERSION_2 : Nat := 0x20000000
def S2MPU_VERSION_9 : Nat := 0x90000000

/-- Modelled from the spec: MPT protection bits `{R, W}`. -/
def MPT_PROT_NONE : Nat := 0
def MPT_PROT_R : Nat := 1
def MPT_PROT_W : Nat := 2
def MPT_PROT_RW : Nat := 3

/-- Modelled from the spec: host stage-2 protection bits projected by
`prot_to_mpt`. -/
def KVM_PGTABLE_PROT_R : Nat := 1
def KVM_PGTABLE_PROT_W : Nat := 2

/-- errno values used by the source (negated on return). -/
def EINVAL : Int := 22
def ENODEV : Int := 19

/-! ## MMIO trace events

Every relaxed MMIO access of the driver is recorded as one event.  Device
tag 0 is the S2MPU itself; tag `i + 1` is the `i`-th SysMMU_SYNC child. -/

inductive Ev where
  | rd (dev off v : Nat)
  | wr (dev off v : Nat)
deriving DecidableEq, Repr

/-- `true` for a write event (any device, any offset). -/
def Ev.isWrite : Ev → Bool
  | .wr _ _ _ => true
  | .rd _ _ _ => false

/-- A write to one of the parent S2MPU `L1ENTRY_*` registers. -/
def Ev.isL1entryWrite : Ev → Bool
  | .wr 0 off _ =>
      decide (REG_NS_L1ENTRY_L2TABLE_ADDR 0 0 ≤ off ∧ off < REG_NS_L1ENTRY_ATTR NR_VIDS 0)
  | _ => false

/-- The parent-device `CONTEXT_CFG_VALID_VID` write. -/
def Ev.isCtxCfgWrite : Ev → Bool
  | .wr 0 off _ => off == REG_NS_CONTEXT_CFG_VALID_VID
  | _ => false

/-- A read of the parent-device `STATUS` register. -/
def Ev.isStatusRead : Ev → Bool
  | .rd 0 off _ => off == REG_NS_STATUS
  | _ => false

/-- Device tag of an event. -/
def Ev.devOf : Ev → Nat
  | .rd d _ _ => d
  | .wr d _ _ => d

/-! ## Driver state -/

/-- `struct s2mpu_drv_data` (source lines 46-49). -/
structure DrvData where
  version : Nat
  context_cfg_valid_vid : Nat
deriving DecidableEq, Repr

/-- `is_version` (source lines 64-69). -/
def is_version (data : DrvData) (version : Nat) : Bool :=
  data.version &&& VERSION_CHECK_MASK == version

/-- `prot_to_mpt` (source lines 58-62). -/
def prot_to_mpt (prot : Nat) : Nat :=
  (if prot &&& KVM_PGTABLE_PROT_R ≠ 0 then MPT_PROT_R else 0) |||
  (if prot &&& KVM_PGTABLE_PROT_W ≠ 0 then MPT_PROT_W else 0)

/-! ## Host MMIO access masks (source lines 421-544) -/

/-- The two version-dispatched register-operation tables installed by
`s2mpu_init` (`ops_v1_v2` and `ops_v9`, source lines 573-582). -/
inductive RegOpsKind where
  | v1_v2
  | v9
deriving DecidableEq, Repr

/-- Bitwise complement at `size_t` (64-bit) width, for `~REG_NS_FAULT_VID_MASK`. -/
def not64 (m : Nat) : Nat := (2 ^ 64 - 1) ^^^ m

/-- `host_mmio_reg_access_mask_v1_v2` (source lines 479-506). -/
def host_mmio_reg_access_mask_v1_v2 (off : Nat) (is_write : Bool) : Nat :=
  let no_access : Nat := 0
  let read_write : Nat := 0xFFFFFFFF
  let read_only := if is_write then no_access else read_write
  let write_only := if is_write then read_write else no_access
  if off = REG_NS_CTRL0 then read_only &&& CTRL0_MASK
  else if off = REG_NS_CTRL1 then read_only &&& CTRL1_MASK
  else if off = REG_NS_READ_MPTC then write_only &&& READ_MPTC_MASK
  else if off = REG_NS_READ_MPTC_TAG_PPN then read_only &&& READ_MPTC_TAG_PPN_MASK
  else if off = REG_NS_READ_MPTC_TAG_OTHERS then read_only &&& READ_MPTC_TAG_OTHERS_MASK
  else if off = REG_NS_READ_MPTC_DATA then read_only
  else no_access

/-- `host_mmio_reg_access_mask_v9` (source lines 421-477). -/
def host_mmio_reg_access_mask_v9 (off : Nat) (is_write : Bool) : Nat :=
  let no_access : Nat := 0
  let read_write : Nat := 0xFFFFFFFF
  let read_only := if is_write then no_access else read_write
  let write_only := if is_write then read_write else no_access
  if off = REG_NS_CTRL0 then read_only &&& V9_CTRL0_MASK
  else if off = REG_NS_V9_CTRL_ERR_RESP_T_PER_VID_SET then read_only &&& ALL_VIDS_BITMAP
  else if off = REG_NS_V9_CTRL_PROT_EN_PER_VID_SET then read_only &&& ALL_VIDS_BITMAP
  else if off = REG_NS_V9_READ_STLB then
    write_only &&& (V9_READ_STLB_MASK_TYPEA ||| V9_READ_STLB_MASK_TYPEB)
  else if off = REG_NS_V9_READ_STLB_TPN then read_only &&& V9_READ_STLB_TPN_MASK
  else if off = REG_NS_V9_READ_STLB_TAG_PPN then read_only &&& V9_READ_STLB_TAG_PPN_MASK
  else if off = REG_NS_V9_READ_STLB_TAG_OTHERS then read_only &&& V9_READ_STLB_TAG_OTHERS_MASK
  else if off = REG_NS_V9_READ_STLB_DATA then read_only
  else if off = REG_NS_V9_MPTC_INFO then read_only &&& V9_READ_MPTC_INFO_MASK
  else if off = REG_NS_V9_READ_MPTC then write_only &&& V9_READ_MPTC_MASK
  else if off = REG_NS_V9_READ_MPTC_TAG_PPN then read_only &&& V9_READ_MPTC_TAG_PPN_MASK
  else if off = REG_NS_V9_READ_MPTC_TAG_OTHERS then read_only &&& V9_READ_MPTC_TAG_OTHERS_MASK
  else if off = REG_NS_V9_READ_MPTC_DATA then read_only
  else if off = REG_NS_V9_PMMU_INFO then read_only &&& V9_READ_PMMU_INFO_MASK
  else if off = REG_NS_V9_READ_PTLB then write_only &&& V9_READ_PTLB_MASK
  else if off = REG_NS_V9_READ_PTLB_TAG then read_only &&& V9_READ_PTLB_TAG_MASK
  else if off = REG_NS_V9_READ_PTLB_DATA_S1_EN_PPN_AP then
    read_only &&& V9_READ_PTLB_DATA_S1_ENABLE_PPN_AP_MASK
  else if off = REG_NS_V9_READ_PTLB_DATA_S1_DIS_AP_LIST then read_only
  else if off = REG_NS_V9_PMMU_INDICATOR then read_only &&& V9_READ_PMMU_INDICATOR_MASK
  else if off = REG_NS_V9_SWALKER_INFO then read_only &&& V9_SWALKER_INFO_MASK
  else if REG_NS_V9_PMMU_PTLB_INFO 0 ≤ off ∧ off < REG_NS_V9_PMMU_PTLB_INFO V9_MAX_PTLB_NUM then
    read_only &&& V9_READ_PMMU_PTLB_INFO_MASK
  else if REG_NS_V9_STLB_INFO 0 ≤ off ∧ off < REG_NS_V9_STLB_INFO V9_MAX_STLB_NUM then
    read_only &&& V9_READ_SLTB_INFO_MASK
  else no_access

/-- `host_mmio_reg_access_mask` (source lines 508-544); the trailing
version dispatch through `reg_ops` is the `RegOpsKind` argument. -/
def host_mmio_reg_access_mask (k : RegOpsKind) (off : Nat) (is_write : Bool) : Nat :=
  let no_access : Nat := 0
  let read_write : Nat := 0xFFFFFFFF
  let read_only := if is_write then no_access else read_write
  let write_only := if is_write then read_write else no_access
  if off = REG_NS_CFG then read_only &&& CFG_MASK
  else if off = REG_NS_INTERRUPT_CLEAR then write_only &&& ALL_VIDS_BITMAP
  else if off = REG_NS_INFO then read_only &&& INFO_NUM_SET_MASK
  else if off = REG_NS_FAULT_STATUS then read_only &&& ALL_VIDS_BITMAP
  else if REG_NS_L1ENTRY_L2TABLE_ADDR 0 0 ≤ off ∧ off < REG_NS_L1ENTRY_ATTR NR_VIDS 0 then
    read_only
  else
    let masked_off := off &&& not64 REG_NS_FAULT_VID_MASK
    if masked_off = REG_NS_FAULT_PA_LOW 0 ∨ masked_off = REG_NS_FAULT_PA_HIGH 0 ∨
        masked_off = REG_NS_FAULT_INFO 0 then
      read_only
    else
      match k with
      | .v1_v2 => host_mmio_reg_access_mask_v1_v2 off is_write
      | .v9 => host_mmio_reg_access_mask_v9 off is_write

/-! ## Host data-abort handler (source lines 546-568) -/

/-- ESR_EL2 field encodings (Arm architectural constants, `asm/esr.h`). -/
def ESR_ELx_WNR : Nat := 2 ^ 6
def ESR_ELx_SAS : Nat := 0xC00000
def ESR_ELx_SAS_SHIFT : Nat := 22
def ESR_ELx_SRT_MASK : Nat := 0x1F0000
def ESR_ELx_SRT_SHIFT : Nat := 16

/-- `s2mpu_host_dabt_handler` (source lines 546-568).

`regs` is the host `kvm_cpu_context` register file, `dev_read` the value
the device returns for the (single) load the handler may perform.
Returns the handled flag, the updated register file and the MMIO trace. -/
def s2mpu_host_dabt_handler (k : RegOpsKind) (regs : Nat → Nat) (dev_read : Nat)
    (esr off : Nat) : Bool × (Nat → Nat) × List Ev :=
  let is_write : Bool := esr &&& ESR_ELx_WNR ≠ 0
  let len : Nat := 2 ^ ((esr &&& ESR_ELx_SAS) >>> ESR_ELx_SAS_SHIFT)
  let rd : Nat := (esr &&& ESR_ELx_SRT_MASK) >>> ESR_ELx_SRT_SHIFT
  if len ≠ 4 ∨ off &&& 3 ≠ 0 then (false, regs, [])
  else
    let mask := host_mmio_reg_access_mask k off is_write
    if mask = 0 then (false, regs, [])
    else if is_write then
      (true, regs, [Ev.wr 0 off (regs rd &&& mask)])
    else
      (true, fun i => if i = rd then dev_read &&& mask else regs i, [Ev.rd 0 off dev_read])

/-! ## Context configuration (source lines 32-34 and 71-126) -/

/-- Fuel-bounded search for the least significant set bit; 32 bits of
fuel suffice for a `u32`. -/
def ffs_aux : Nat → Nat → Nat
  | 0, _ => 0
  | fuel + 1, n => if n % 2 = 1 then 0 else ffs_aux fuel (n / 2) + 1

/-- `__ffs`: index of the least significant set bit of a non-zero `u32`. -/
def __ffs (n : Nat) : Nat := ffs_aux 32 n

/-- Modelled from the spec: nibble encoding of a context slot in
`CONTEXT_CFG_VALID_VID` — 3 VID bits plus a valid bit per context. -/
def CONTEXT_CFG_VALID_VID_CTX_VID (ctx vid : Nat) : Nat := vid <<< (4 * ctx)

/-- Modelled from the spec: valid bit of context slot `ctx`. -/
def CONTEXT_CFG_VALID_VID_CTX_VALID (ctx : Nat) : Nat := 8 <<< (4 * ctx)

/-- `CTX_CFG_ENTRY` macro (source lines 32-34). -/
def CTX_CFG_ENTRY (ctxid nr_ctx vid : Nat) : Nat :=
  CONTEXT_CFG_VALID_VID_CTX_VID ctxid vid |||
  (if ctxid < nr_ctx then CONTEXT_CFG_VALID_VID_CTX_VALID ctxid else 0)

/-- The `while (vid_bmap)` allocation loop of `__context_cfg_valid_vid`
(source lines 84-92).  The fuel of 32 is an upper bound on the set bits of
the `u32` bitmap; each iteration clears one set bit. -/
def ctx_assign_loop : Nat → Nat → Nat → Nat → List Nat → Nat × List Nat
  | 0, _, ctx, _, ctx_vid => (ctx, ctx_vid)
  | fuel + 1, vid_bmap, ctx, num_ctx, ctx_vid =>
    if vid_bmap = 0 then (ctx, ctx_vid)
    else if num_ctx ≤ ctx then (ctx, ctx_vid)
    else
      let vid := __ffs vid_bmap
      ctx_assign_loop fuel (vid_bmap &&& (0xFFFFFFFF ^^^ (1 <<< vid)))
        (ctx + 1) num_ctx (ctx_vid.set ctx vid)

/-- The allocation loop followed by the unrolled `CTX_CFG_ENTRY` OR-chain
of `__context_cfg_valid_vid` (source lines 84-103). -/
def ctx_cfg_res (vid_bmap num_ctx : Nat) : Nat :=
  let r := ctx_assign_loop 32 vid_bmap 0 num_ctx (List.replicate NR_CTX_IDS 0)
  let ctx := r.1
  let ctx_vid := r.2
  CTX_CFG_ENTRY 0 ctx (ctx_vid.getD 0 0)
    ||| CTX_CFG_ENTRY 1 ctx (ctx_vid.getD 1 0)
    ||| CTX_CFG_ENTRY 2 ctx (ctx_vid.getD 2 0)
    ||| CTX_CFG_ENTRY 3 ctx (ctx_vid.getD 3 0)
    ||| CTX_CFG_ENTRY 4 ctx (ctx_vid.getD 4 0)
    ||| CTX_CFG_ENTRY 5 ctx (ctx_vid.getD 5 0)
    ||| CTX_CFG_ENTRY 6 ctx (ctx_vid.getD 6 0)
    ||| CTX_CFG_ENTRY 7 ctx (ctx_vid.getD 7 0)

/-- `__context_cfg_valid_vid` (source lines 71-107).  `num_context_reg` is
the value the `NUM_CONTEXT` register read returns.  Result, updated
driver data, MMIO trace. -/
def __context_cfg_valid_vid (data : DrvData) (num_context_reg : Nat) (vid_bmap : Nat) :
    Nat × DrvData × List Ev :=
  if data.context_cfg_valid_vid ≠ 0 then (data.context_cfg_valid_vid, data, [])
  else
    let res := ctx_cfg_res vid_bmap (num_context_reg &&& NUM_CONTEXT_MASK)
    (res, { data with context_cfg_valid_vid := res },
     [Ev.rd 0 REG_NS_NUM_CONTEXT num_context_reg])

/-- `__initialize_v2` (source lines 109-126). -/
def __initialize_v2 (data : DrvData) (num_context_reg : Nat) : Int × DrvData × List Ev :=
  let r := __context_cfg_valid_vid data num_context_reg ALL_VIDS_BITMAP
  let ctx_cfg := r.1
  if ctx_cfg = 0 then (-EINVAL, r.2.1, r.2.2)
  else (0, r.2.1, r.2.2 ++ [Ev.wr 0 REG_NS_CONTEXT_CFG_VALID_VID ctx_cfg])

/-- `__initialize` (source lines 128-143); source name `__initialize`,
suffixed here with the ops table it belongs to.  `version_reg` is the
value the lazy `VERSION` register read returns. -/
def __initialize_v1v2 (data : DrvData) (version_reg num_context_reg : Nat) :
    Int × DrvData × List Ev :=
  let data1 := if data.version = 0 then { data with version := version_reg } else data
  let tr1 : List Ev := if data.version = 0 then [Ev.rd 0 REG_NS_VERSION version_reg] else []
  if data1.version &&& VERSION_CHECK_MASK = S2MPU_VERSION_1 then (0, data1, tr1)
  else if data1.version &&& VERSION_CHECK_MASK = S2MPU_VERSION_2 then
    let r := __initialize_v2 data1 num_context_reg
    (r.1, r.2.1, tr1 ++ r.2.2)
  else (-EINVAL, data1, tr1)

/-! ## Control registers (source lines 145-193) -/

/-- `__set_control_regs` (source lines 145-176). -/
def __set_control_regs (data : DrvData) : List Ev :=
  let ctrl0 := CTRL0_ENABLE ||| CTRL0_INTERRUPT_ENABLE |||
    (if is_version data S2MPU_VERSION_2 then CTRL0_FAULT_RESP_TYPE_DECERR
     else CTRL0_FAULT_RESP_TYPE_SLVERR)
  let irq_vids := ALL_VIDS_BITMAP
  [Ev.wr 0 REG_NS_INTERRUPT_ENABLE_PER_VID_SET irq_vids,
   Ev.wr 0 REG_NS_CFG 0,
   Ev.wr 0 REG_NS_CTRL1 0,
   Ev.wr 0 REG_NS_CTRL0 ctrl0]

/-- `__set_control_regs_v9` (source lines 177-193). -/
def __set_control_regs_v9 : List Ev :=
  [Ev.wr 0 REG_NS_V9_CTRL_ERR_RESP_T_PER_VID_SET ALL_VIDS_BITMAP,
   Ev.wr 0 REG_NS_INTERRUPT_ENABLE_PER_VID_SET ALL_VIDS_BITMAP,
   Ev.wr 0 REG_NS_CTRL0 0,
   Ev.wr 0 REG_NS_V9_CTRL_PROT_EN_PER_VID_SET ALL_VIDS_BITMAP,
   Ev.wr 0 REG_NS_V9_CFG_MPTW_ATTRIBUTE 0]

/-! ## SYNC barrier and invalidation engine (source lines 200-292) -/

/-- `__wait_until` (source lines 200-209): poll until all `mask` bits are
set, at most `max_attempts` reads.  `read i` is the value of the `i`-th
poll.  Returns success and the number of reads performed. -/
def __wait_until (read : Nat → Nat) (mask : Nat) : Nat → Bool × Nat
  | 0 => (false, 0)
  | max_attempts + 1 =>
    if read 0 &&& mask = mask then (true, 1)
    else
      let r := __wait_until (fun i => read (i + 1)) mask max_attempts
      (r.1, r.2 + 1)

/-- `__sync_cmd_start` (source lines 218-221) on child device `c`. -/
def __sync_cmd_start (c : Nat) : List Ev :=
  [Ev.wr c REG_NS_SYNC_CMD SYNC_CMD_SYNC]

/-- The retry loop of `__invalidation_barrier_slow` (source lines 236-242),
structurally recursive on the remaining retries.  `read a j` is the value
of poll `j` of attempt `a`; `a` is the attempt about to run. -/
def barrier_slow_go (read : Nat → Nat → Nat) (c : Nat) :
    Nat → Nat → Nat → List Ev
  | 0, _, _ => []
  | fuel + 1, a, timeout =>
    match __wait_until (read a) SYNC_COMP_COMPLETE timeout with
    | (ok, n) =>
      __sync_cmd_start c ++
      (List.range n).map (fun j => Ev.rd c REG_NS_SYNC_COMP (read a j)) ++
      (if ok then []
       else barrier_slow_go read c fuel (a + 1) (timeout * SYNC_TIMEOUT_MULTIPLIER))

/-- `__invalidation_barrier_slow` (source lines 223-243). -/
def __invalidation_barrier_slow (read : Nat → Nat → Nat) (c : Nat) : List Ev :=
  barrier_slow_go read c SYNC_MAX_RETRIES 0 SYNC_TIMEOUT

/-- Hardware responses of one SysMMU_SYNC child: the first `SYNC_COMP`
read of the completion phase, and the poll values of the slow path. -/
structure SyncOracle where
  comp0 : Nat
  slow : Nat → Nat → Nat

/-- Hardware responses of one S2MPU device: lazy `VERSION` read,
`NUM_CONTEXT` read, children, and the `STATUS` polls (`status_busy`
consecutive busy readings before the first clear one — the source loop is
unbounded and terminates when the hardware clears the bits). -/
structure DevOracle where
  version_reg : Nat
  num_context_reg : Nat
  children : List SyncOracle
  status : Nat → Nat
  status_busy : Nat

/-- `__invalidation_barrier_init` (source lines 246-252). -/
def __invalidation_barrier_init (nchildren : Nat) : List Ev :=
  (List.range nchildren).flatMap (fun i => __sync_cmd_start (i + 1))

/-- One child's part of the completion phase (source lines 263-266). -/
def barrier_complete_child (c : Nat) (o : SyncOracle) : List Ev :=
  Ev.rd c REG_NS_SYNC_COMP o.comp0 ::
  (if o.comp0 &&& SYNC_COMP_COMPLETE = 0 then __invalidation_barrier_slow o.slow c else [])

/-- The per-child completion phase of `__invalidation_barrier_complete`. -/
def barrier_complete_children (children : List SyncOracle) : List Ev :=
  children.enum.flatMap (fun p => barrier_complete_child (p.1 + 1) p.2)

/-- `__wait_while` (source lines 212-216) on the parent `STATUS` register:
`busy` busy readings, then the reading that clears the mask. -/
def status_wait_trace (o : DevOracle) : List Ev :=
  (List.range (o.status_busy + 1)).map (fun i => Ev.rd 0 REG_NS_STATUS (o.status i))

/-- `__invalidation_barrier_complete` (source lines 255-273). -/
def __invalidation_barrier_complete (data : DrvData) (o : DevOracle) : List Ev :=
  barrier_complete_children o.children ++
  (if is_version data S2MPU_VERSION_2 || is_version data S2MPU_VERSION_9 then
     status_wait_trace o
   else [])

/-- `__all_invalidation` (source lines 275-280). -/
def __all_invalidation (data : DrvData) (o : DevOracle) : List Ev :=
  Ev.wr 0 REG_NS_ALL_INVALIDATION INVALIDATION_INVALIDATE ::
  (__invalidation_barrier_init o.children.length ++ __invalidation_barrier_complete data o)

/-- `__range_invalidation_init` (source lines 282-292). -/
def __range_invalidation_init (nchildren : Nat) (first_byte last_byte : Nat) : List Ev :=
  [Ev.wr 0 REG_NS_RANGE_INVALIDATION_START_PPN (first_byte >>> RANGE_INVALIDATION_PPN_SHIFT),
   Ev.wr 0 REG_NS_RANGE_INVALIDATION_END_PPN (last_byte >>> RANGE_INVALIDATION_PPN_SHIFT),
   Ev.wr 0 REG_NS_RANGE_INVALIDATION INVALIDATION_INVALIDATE] ++
  __invalidation_barrier_init nchildren

/-! ## Device bring-up (source lines 298-332 and 398-419) -/

/-- `reg_ops->init` dispatch (source lines 573-582). -/
def reg_ops_init (k : RegOpsKind) (data : DrvData) (o : DevOracle) : Int × DrvData × List Ev :=
  match k with
  | .v1_v2 => __initialize_v1v2 data o.version_reg o.num_context_reg
  | .v9 => __initialize_v2 data o.num_context_reg

/-- `reg_ops->set_control_regs` dispatch (source lines 573-582). -/
def reg_ops_set_control_regs (k : RegOpsKind) (data : DrvData) : List Ev :=
  match k with
  | .v1_v2 => __set_control_regs data
  | .v9 => __set_control_regs_v9

/-- Common body of `initialize_with_prot` and `initialize_with_mpt`
(source lines 298-332): the two differ only in which external `mpt_ops`
encoder runs between `reg_ops->init` and `__all_invalidation`; `enc` is
that encoder's MMIO trace. -/
def initialize_dev (k : RegOpsKind) (data : DrvData) (o : DevOracle) (enc : List Ev) :
    Int × DrvData × List Ev :=
  let r := reg_ops_init k data o
  if r.1 ≠ 0 then r
  else
    (0, r.2.1,
     r.2.2 ++ enc ++ __all_invalidation r.2.1 o ++ reg_ops_set_control_regs k r.2.1)

/-- `initialize_with_mpt` (source lines 318-332); `enc` is the trace of
the external `mpt_ops->init_with_mpt`. -/
def initialize_with_mpt (k : RegOpsKind) (data : DrvData) (o : DevOracle) (enc : List Ev) :
    Int × DrvData × List Ev :=
  initialize_dev k data o enc

/-- `initialize_with_prot` (source lines 298-312); `enc` is the trace of
the external `mpt_ops->init_with_prot`. -/
def initialize_with_prot (k : RegOpsKind) (data : DrvData) (o : DevOracle) (enc : List Ev) :
    Int × DrvData × List Ev :=
  initialize_dev k data o enc

/-- `s2mpu_resume` (source lines 398-407). -/
def s2mpu_resume (k : RegOpsKind) (data : DrvData) (o : DevOracle) (enc : List Ev) :
    Int × DrvData × List Ev :=
  initialize_with_mpt k data o enc

/-- `s2mpu_suspend` (source lines 409-419). -/
def s2mpu_suspend (k : RegOpsKind) (data : DrvData) (o : DevOracle) (enc : List Ev) :
    Int × DrvData × List Ev :=
  initialize_with_prot k data o enc

/-! ## Host stage-2 idmap engine (source lines 334-396) -/

/-- `ALIGN_DOWN(x, a)` for a power-of-two `a` (kernel macro): clear the
sub-`a` bits; written with division, which agrees with the bit mask for
powers of two. -/
def ALIGN_DOWN (x a : Nat) : Nat := x / a * a

/-- `ALIGN(x, a)` (align up) for a power-of-two `a`. -/
def ALIGN_UP (x a : Nat) : Nat := (x + a - 1) / a * a

/-- `to_valid_range` (source lines 334-351): clamp to `PA_MAX`, align to
`SMPT_GRAN`, and fail when the result is empty. -/
def to_valid_range (start endp : Nat) : Option (Nat × Nat) :=
  let new_end := if PA_MAX < endp then PA_MAX else endp
  let new_start := ALIGN_DOWN start SMPT_GRAN
  let new_end := ALIGN_UP new_end SMPT_GRAN
  if new_end ≤ new_start then none
  else some (new_start, new_end)

/-- The host MPT is kept abstract for the idmap engine: mutations go
through the external `mpt_ops->prepare_range`, passed in as `prep`. -/
def s2mpu_host_stage2_idmap_prepare {Mpt : Type}
    (prep : Mpt → Nat → Nat → Nat → Mpt)
    (host_mpt : Mpt) (start endp prot : Nat) : Mpt × List Ev :=
  match to_valid_range start endp with
  | none => (host_mpt, [])
  | some r => (prep host_mpt r.1 (r.2 - 1) (prot_to_mpt prot), [])

/-- `s2mpu_host_stage2_idmap_apply` (source lines 384-391) together with
`__mpt_idmap_apply` (source lines 359-368); `apply_writes` is the MMIO
trace of the external `mpt_ops->apply_range`. -/
def s2mpu_host_stage2_idmap_apply (apply_writes : List Ev) (nchildren : Nat)
    (start endp : Nat) : List Ev :=
  match to_valid_range start endp with
  | none => []
  | some r => apply_writes ++ __range_invalidation_init nchildren r.1 (r.2 - 1)

/-! ## Driver-level init and rollback (source lines 584-653) -/

/-- One `struct fmpt` slot of `host_mpt` (source lines 632-636); `smpt`
is `none` while the slot is still zeroed. -/
structure Fmpt where
  smpt : Option Nat
  gran_1g : Bool
  prot : Nat
deriving DecidableEq, Repr

def zeroFmpt : Fmpt := { smpt := none, gran_1g := false, prot := 0 }

/-- Environment of one `s2mpu_init` call: per-GiB SMPT buffer hypervisor
VA and physical address, the result of `__pkvm_host_donate_hyp` for each
region, the version field of the host-supplied MPT, whether
`s2mpu_get_mpt_ops` knows the version, and the SMPT size it reports. -/
structure InitEnv where
  smpt_va : Nat → Nat
  pa : Nat → Nat
  donate_ret : Nat → Int
  version : Nat
  mpt_ops_ok : Bool
  smpt_size : Nat

/-- Ownership ledger: the GiB regions whose SMPT pages are currently
donated to the hypervisor. -/
abbrev Donated := List Nat

/-- The `for_each_gb` donation loop of `s2mpu_init` (source lines
619-637), iterating over the remaining GiB indices.  `host_mpt` is the
function `gb ↦ fmpt` slot. -/
def s2mpu_init_loop (env : InitEnv) :
    List Nat → (Nat → Fmpt) × Donated → Int × (Nat → Fmpt) × Donated
  | [], st => (0, st)
  | gb :: rest, (host_mpt, donated) =>
    if env.pa gb % env.smpt_size ≠ 0 then (-EINVAL, host_mpt, donated)
    else if env.donate_ret gb ≠ 0 then (env.donate_ret gb, host_mpt, donated)
    else
      s2mpu_init_loop env rest
        (fun i => if i = gb then
            { smpt := some (env.smpt_va gb), gran_1g := true, prot := MPT_PROT_RW }
          else host_mpt i,
         donated ++ [gb])

/-- The error-path recovery loop of `s2mpu_init` (source lines 640-648):
walk the regions, stop at the first still-zeroed slot, and donate each
claimed SMPT buffer back (`__pkvm_hyp_donate_host`). -/
def s2mpu_rollback_loop (host_mpt : Nat → Fmpt) :
    List Nat → Donated → Donated
  | [], donated => donated
  | gb :: rest, donated =>
    match (host_mpt gb).smpt with
    | none => donated
    | some _ => s2mpu_rollback_loop host_mpt rest (donated.erase gb)

/-- Modelled from the spec: `sizeof(struct mpt)`, the only accepted
`size` argument. -/
def MPT_STRUCT_SIZE : Nat := 40

/-- `s2mpu_init` (source lines 584-653), for the first (one-shot) call:
`host_mpt` starts fully zeroed and no SMPT page is donated.  Returns the
error code, the final `host_mpt`, and the final donation ledger. -/
def s2mpu_init (env : InitEnv) (size : Nat) : Int × (Nat → Fmpt) × Donated :=
  let host_mpt0 : Nat → Fmpt := fun _ => zeroFmpt
  if size ≠ MPT_STRUCT_SIZE then (-EINVAL, host_mpt0, [])
  else if ¬(env.version = S2MPU_VERSION_1 ∨ env.version = S2MPU_VERSION_2 ∨
            env.version = S2MPU_VERSION_9) then (-ENODEV, host_mpt0, [])
  else if ¬env.mpt_ops_ok then (-EINVAL, host_mpt0, [])
  else
    let r := s2mpu_init_loop env (List.range NR_GIGABYTES) (host_mpt0, [])
    if r.1 ≠ 0 then
      (r.1, fun _ => zeroFmpt, s2mpu_rollback_loop r.2.1 (List.range NR_GIGABYTES) r.2.2)
    else r

/-- The offsets handled by a non-default branch of the access-mask
tables: the common table, the `L1ENTRY` range, the per-VID fault
pattern, and the version-specific table selected by `k`.  The condition
structure mirrors the mask functions branch for branch. -/
def mask_table_hit (k : RegOpsKind) (off : Nat) : Bool :=
  if off = REG_NS_CFG then true
  else if off = REG_NS_INTERRUPT_CLEAR then true
  else if off = REG_NS_INFO then true
  else if off = REG_NS_FAULT_STATUS then true
  else if REG_NS_L1ENTRY_L2TABLE_ADDR 0 0 ≤ off ∧ off < REG_NS_L1ENTRY_ATTR NR_VIDS 0 then
    true
  else
    let masked_off := off &&& not64 REG_NS_FAULT_VID_MASK
    if masked_off = REG_NS_FAULT_PA_LOW 0 ∨ masked_off = REG_NS_FAULT_PA_HIGH 0 ∨
        masked_off = REG_NS_FAULT_INFO 0 then
      true
    else
      match k with
      | .v1_v2 =>
        if off = REG_NS_CTRL0 then true
        else if off = REG_NS_CTRL1 then true
        else if off = REG_NS_READ_MPTC then true
        else if off = REG_NS_READ_MPTC_TAG_PPN then true
        else if off = REG_NS_READ_MPTC_TAG_OTHERS then true
        else if off = REG_NS_READ_MPTC_DATA then true
        else false
      | .v9 =>
        if off = REG_NS_CTRL0 then true
        else if off = REG_NS_V9_CTRL_ERR_RESP_T_PER_VID_SET then true
        else if off = REG_NS_V9_CTRL_PROT_EN_PER_VID_SET then true
        else if off = REG_NS_V9_READ_STLB then true
        else if off = REG_NS_V9_READ_STLB_TPN then true
        else if off = REG_NS_V9_READ_STLB_TAG_PPN then true
        else if off = REG_NS_V9_READ_STLB_TAG_OTHERS then true
        else if off = REG_NS_V9_READ_STLB_DATA then true
        else if off = REG_NS_V9_MPTC_INFO then true
        else if off = REG_NS_V9_READ_MPTC then true
        else if off = REG_NS_V9_READ_MPTC_TAG_PPN then true
        else if off = REG_NS_V9_READ_MPTC_TAG_OTHERS then true
        else if off = REG_NS_V9_READ_MPTC_DATA then true
        else if off = REG_NS_V9_PMMU_INFO then true
        else if off = REG_NS_V9_READ_PTLB then true
        else if off = REG_NS_V9_READ_PTLB_TAG then true
        else if off = REG_NS_V9_READ_PTLB_DATA_S1_EN_PPN_AP then true
        else if off = REG_NS_V9_READ_PTLB_DATA_S1_DIS_AP_LIST then true
        else if off = REG_NS_V9_PMMU_INDICATOR then true
        else if off = REG_NS_V9_SWALKER_INFO then true
        else if REG_NS_V9_PMMU_PTLB_INFO 0 ≤ off ∧
            off < REG_NS_V9_PMMU_PTLB_INFO V9_MAX_PTLB_NUM then true
        else if REG_NS_V9_STLB_INFO 0 ≤ off ∧
            off < REG_NS_V9_STLB_INFO V9_MAX_STLB_NUM then true
        else false

/-- The context assignment as the spec words it: the non-zero VIDs of
`bmap` in ascending bit order, filling at most `n` context slots.
Written from the spec, for comparison with `ctx_cfg_res`. -/
def spec_assigned_vids (bmap n : Nat) : List Nat :=
  ((List.range 32).filter (fun v => bmap.testBit v)).take n

/-- Spec encoding of `CONTEXT_CFG_VALID_VID`: slot `i` is valid and holds
`vids[i]`; all other slots are empty.  Written from the spec, for
comparison with `ctx_cfg_res`. -/
def spec_ctx_cfg (vids : List Nat) : Nat :=
  (vids.enum.map (fun p =>
    CONTEXT_CFG_VALID_VID_CTX_VALID p.1 |||
    CONTEXT_CFG_VALID_VID_CTX_VID p.1 p.2)).foldr (fun a b => a ||| b) 0

/-- Number of `SYNC_CMD` kick writes to child `c` in a trace. -/
def sync_cmd_count (c : Nat) (tr : List Ev) : Nat :=
  tr.countP (fun e => e == Ev.wr c REG_NS_SYNC_CMD SYNC_CMD_SYNC)

/-- A SysMMU_SYNC child whose first `SYNC_COMP` poll already reports
completion (used to instantiate hypotheses at concrete inputs). -/
def sample_sync : SyncOracle := { comp0 := 1, slow := fun _ _ => 1 }

/-- A simple device oracle: one child in the completed state, 8 hardware
contexts, `VERSION` register reporting v2, `STATUS` immediately clear. -/
def sample_oracle : DevOracle :=
  { version_reg := 0x20000000, num_context_reg := 8, children := [sample_sync],
    status := fun _ => 0, status_busy := 0 }

/-! ## Theorems -/

/-- `off &&& 3` in the handler's alignment check is `off % 4`. -/
theorem and_three_eq_mod_four (off : Nat) : off &&& 3 = off % 4 := by
  simpa using Nat.and_pow_two_sub_one_eq_mod off 2

/-- C5: a `host_stage2_idmap_prepare` or `host_stage2_idmap_apply` call
whose range is empty after clamping the end to `PA_MAX` and aligning both
bounds to `SMPT_GRAN` performs no MMIO access and leaves `host_mpt`
unchanged. -/
theorem idmap_noop_on_empty_range {Mpt : Type}
    (prep : Mpt → Nat → Nat → Nat → Mpt) (host_mpt : Mpt)
    (apply_writes : List Ev) (nchildren start endp prot : Nat)
    (h : ALIGN_UP (min endp PA_MAX) SMPT_GRAN ≤ ALIGN_DOWN start SMPT_GRAN) :
    s2mpu_host_stage2_idmap_prepare prep host_mpt start endp prot = (host_mpt, []) ∧
    s2mpu_host_stage2_idmap_apply apply_writes nchildren start endp = [] := by
  have hclamp : (if PA_MAX < endp then PA_MAX else endp) = min endp PA_MAX := by
    rcases le_or_lt endp PA_MAX with h1 | h1
    · rw [if_neg (by omega), min_eq_left h1]
    · rw [if_pos h1, min_eq_right (le_of_lt h1)]
  have hv : to_valid_range start endp = none := by
    unfold to_valid_range
    rw [hclamp]
    simp [h]
  constructor
  · unfold s2mpu_host_stage2_idmap_prepare
    rw [hv]
  · unfold s2mpu_host_stage2_idmap_apply
    rw [hv]

/-- Witness for `idmap_noop_on_empty_range` at a concrete empty range. -/
theorem idmap_noop_on_empty_range_witness :
    @s2mpu_host_stage2_idmap_prepare Nat (fun m _ _ _ => m + 1) 7 5000 4000 3
        = (7, []) ∧
    s2mpu_host_stage2_idmap_apply [] 2 5000 4000 = [] :=
  idmap_noop_on_empty_range (fun m _ _ _ => m + 1) 7 [] 2 5000 4000 3 (by decide)

/-- C6: a host data abort whose access width is not 4 bytes or whose
offset is not 4-byte aligned is rejected: the handler returns `false`,
performs no MMIO access, and leaves the host registers untouched. -/
theorem dabt_handler_rejects_bad_width_or_alignment
    (k : RegOpsKind) (regs : Nat → Nat) (dev_read esr off : Nat)
    (h : 2 ^ ((esr &&& ESR_ELx_SAS) >>> ESR_ELx_SAS_SHIFT) ≠ 4 ∨ off % 4 ≠ 0) :
    s2mpu_host_dabt_handler k regs dev_read esr off = (false, regs, []) := by
  unfold s2mpu_host_dabt_handler
  rw [if_pos]
  rcases h with h | h
  · exact Or.inl h
  · exact Or.inr (by rw [and_three_eq_mod_four]; exact h)

/-- Witness for `dabt_handler_rejects_bad_width_or_alignment`: a 2-byte
access at an aligned offset. -/
theorem dabt_handler_rejects_witness :
    s2mpu_host_dabt_handler .v1_v2 (fun _ => 0) 0 0x400000 0 = (false, fun _ => 0, []) :=
  dabt_handler_rejects_bad_width_or_alignment .v1_v2 (fun _ => 0) 0 0x400000 0
    (Or.inl (by decide))

/-- C7: on a 4-byte aligned host trap the handler computes
`mask = host_mmio_reg_access_mask(off, is_write)`; a zero mask rejects
with no MMIO, a write stores `regs[rd] &&& mask` to the device, and a
read loads from the device, masks, and updates `regs[rd]`, returning
handled. -/
theorem dabt_handler_mask_semantics
    (k : RegOpsKind) (regs : Nat → Nat) (dev_read esr off : Nat)
    (hlen : 2 ^ ((esr &&& ESR_ELx_SAS) >>> ESR_ELx_SAS_SHIFT) = 4)
    (hal : off % 4 = 0) :
    (host_mmio_reg_access_mask k off (esr &&& ESR_ELx_WNR ≠ 0) = 0 →
      s2mpu_host_dabt_handler k regs dev_read esr off = (false, regs, [])) ∧
    (∀ mask, host_mmio_reg_access_mask k off (esr &&& ESR_ELx_WNR ≠ 0) = mask → mask ≠ 0 →
      (esr &&& ESR_ELx_WNR ≠ 0 →
        s2mpu_host_dabt_handler k regs dev_read esr off =
          (true, regs,
           [Ev.wr 0 off (regs ((esr &&& ESR_ELx_SRT_MASK) >>> ESR_ELx_SRT_SHIFT) &&& mask)])) ∧
      (esr &&& ESR_ELx_WNR = 0 →
        s2mpu_host_dabt_handler k regs dev_read esr off =
          (true,
           fun i => if i = (esr &&& ESR_ELx_SRT_MASK) >>> ESR_ELx_SRT_SHIFT then
               dev_read &&& mask
             else regs i,
           [Ev.rd 0 off dev_read]))) := by
  have hno : ¬(2 ^ ((esr &&& ESR_ELx_SAS) >>> ESR_ELx_SAS_SHIFT) ≠ 4 ∨ off &&& 3 ≠ 0) := by
    rw [and_three_eq_mod_four]
    push_neg
    exact ⟨hlen, hal⟩
  constructor
  · intro hm
    unfold s2mpu_host_dabt_handler
    rw [if_neg hno]
    simp only [hm]
    simp
  · intro mask hmask hm
    constructor
    · intro hw
      have hwb : decide (esr &&& ESR_ELx_WNR ≠ 0) = true := decide_eq_true hw
      unfold s2mpu_host_dabt_handler
      rw [if_neg hno]
      simp only [hmask]
      rw [if_neg hm, if_pos hwb]
    · intro hr
      have hrb : decide (esr &&& ESR_ELx_WNR ≠ 0) = false :=
        decide_eq_false (fun hne => hne hr)
      unfold s2mpu_host_dabt_handler
      rw [if_neg hno]
      simp only [hmask]
      rw [if_neg hm, if_neg (by simp [hrb])]

/-- Witness for `dabt_handler_mask_semantics`: an aligned 4-byte read of
`CTRL0` (handled, mask applied) for the v1/v2 table. -/
theorem dabt_handler_mask_semantics_witness :
    s2mpu_host_dabt_handler .v1_v2 (fun _ => 5) 0xABCD 0x800000 REG_NS_CTRL0 =
      (true, fun i => if i = 0 then 0xABCD &&& 0xFF else 5, [Ev.rd 0 REG_NS_CTRL0 0xABCD]) := by
  have h := (dabt_handler_mask_semantics .v1_v2 (fun _ => 5) 0xABCD 0x800000 REG_NS_CTRL0
      (by decide) (by decide)).2 0xFF (by decide) (by decide)
  simpa using h.2 (by decide)

/-- Only the `READ_MPTC` selector is writable through the v1/v2 table. -/
theorem v1v2_write_mask_nonzero (off : Nat)
    (h : host_mmio_reg_access_mask_v1_v2 off true ≠ 0) :
    off = REG_NS_READ_MPTC := by
  simp only [host_mmio_reg_access_mask_v1_v2] at h
  simp only [eq_self_iff_true, if_true, Nat.zero_and] at h
  split_ifs at h
  all_goals first
    | assumption
    | exact absurd rfl h

/-- Only the three debug read selectors are writable through the v9
table. -/
theorem v9_write_mask_nonzero (off : Nat)
    (h : host_mmio_reg_access_mask_v9 off true ≠ 0) :
    off = REG_NS_V9_READ_STLB ∨ off = REG_NS_V9_READ_MPTC ∨ off = REG_NS_V9_READ_PTLB := by
  simp only [host_mmio_reg_access_mask_v9] at h
  simp only [eq_self_iff_true, if_true, Nat.zero_and] at h
  by_cases h1 : off = REG_NS_CTRL0
  · rw [if_pos h1] at h; exact absurd rfl h
  rw [if_neg h1] at h
  by_cases h2 : off = REG_NS_V9_CTRL_ERR_RESP_T_PER_VID_SET
  · rw [if_pos h2] at h; exact absurd rfl h
  rw [if_neg h2] at h
  by_cases h3 : off = REG_NS_V9_CTRL_PROT_EN_PER_VID_SET
  · rw [if_pos h3] at h; exact absurd rfl h
  rw [if_neg h3] at h
  by_cases h4 : off = REG_NS_V9_READ_STLB
  · exact Or.inl h4
  rw [if_neg h4] at h
  by_cases h5 : off = REG_NS_V9_READ_STLB_TPN
  · rw [if_pos h5] at h; exact absurd rfl h
  rw [if_neg h5] at h
  by_cases h6 : off = REG_NS_V9_READ_STLB_TAG_PPN
  · rw [if_pos h6] at h; exact absurd rfl h
  rw [if_neg h6] at h
  by_cases h7 : off = REG_NS_V9_READ_STLB_TAG_OTHERS
  · rw [if_pos h7] at h; exact absurd rfl h
  rw [if_neg h7] at h
  by_cases h8 : off = REG_NS_V9_READ_STLB_DATA
  · rw [if_pos h8] at h; exact absurd rfl h
  rw [if_neg h8] at h
  by_cases h9 : off = REG_NS_V9_MPTC_INFO
  · rw [if_pos h9] at h; exact absurd rfl h
  rw [if_neg h9] at h
  by_cases h10 : off = REG_NS_V9_READ_MPTC
  · exact Or.inr (Or.inl h10)
  rw [if_neg h10] at h
  by_cases h11 : off = REG_NS_V9_READ_MPTC_TAG_PPN
  · rw [if_pos h11] at h; exact absurd rfl h
  rw [if_neg h11] at h
  by_cases h12 : off = REG_NS_V9_READ_MPTC_TAG_OTHERS
  · rw [if_pos h12] at h; exact absurd rfl h
  rw [if_neg h12] at h
  by_cases h13 : off = REG_NS_V9_READ_MPTC_DATA
  · rw [if_pos h13] at h; exact absurd rfl h
  rw [if_neg h13] at h
  by_cases h14 : off = REG_NS_V9_PMMU_INFO
  · rw [if_pos h14] at h; exact absurd rfl h
  rw [if_neg h14] at h
  by_cases h15 : off = REG_NS_V9_READ_PTLB
  · exact Or.inr (Or.inr h15)
  rw [if_neg h15] at h
  by_cases h16 : off = REG_NS_V9_READ_PTLB_TAG
  · rw [if_pos h16] at h; exact absurd rfl h
  rw [if_neg h16] at h
  by_cases h17 : off = REG_NS_V9_READ_PTLB_DATA_S1_EN_PPN_AP
  · rw [if_pos h17] at h; exact absurd rfl h
  rw [if_neg h17] at h
  by_cases h18 : off = REG_NS_V9_READ_PTLB_DATA_S1_DIS_AP_LIST
  · rw [if_pos h18] at h; exact absurd rfl h
  rw [if_neg h18] at h
  by_cases h19 : off = REG_NS_V9_PMMU_INDICATOR
  · rw [if_pos h19] at h; exact absurd rfl h
  rw [if_neg h19] at h
  by_cases h20 : off = REG_NS_V9_SWALKER_INFO
  · rw [if_pos h20] at h; exact absurd rfl h
  rw [if_neg h20] at h
  by_cases h21 : REG_NS_V9_PMMU_PTLB_INFO 0 ≤ off ∧ off < REG_NS_V9_PMMU_PTLB_INFO V9_MAX_PTLB_NUM
  · rw [if_pos h21] at h; exact absurd rfl h
  rw [if_neg h21] at h
  by_cases h22 : REG_NS_V9_STLB_INFO 0 ≤ off ∧ off < REG_NS_V9_STLB_INFO V9_MAX_STLB_NUM
  · rw [if_pos h22] at h; exact absurd rfl h
  rw [if_neg h22] at h
  exact absurd rfl h

/-- C8: through the trap-handler mask tables the host can write only
`INTERRUPT_CLEAR` and the debug read selectors (`READ_MPTC` on v1/v2;
`V9_READ_STLB`, `V9_READ_MPTC`, `V9_READ_PTLB` on v9); every `L1ENTRY_*`
offset, `CTRL0`, `CTRL1`, `CFG` and the invalidation registers are never
host-writable; any offset outside the tables gets a zero mask for both
reads and writes. -/
theorem host_mmio_mask_write_policy :
    (∀ (k : RegOpsKind) (off : Nat), host_mmio_reg_access_mask k off true ≠ 0 →
       off = REG_NS_INTERRUPT_CLEAR ∨
       (k = .v1_v2 ∧ off = REG_NS_READ_MPTC) ∨
       (k = .v9 ∧ (off = REG_NS_V9_READ_STLB ∨ off = REG_NS_V9_READ_MPTC ∨
                   off = REG_NS_V9_READ_PTLB))) ∧
    (∀ (k : RegOpsKind) (off : Nat),
       REG_NS_L1ENTRY_L2TABLE_ADDR 0 0 ≤ off → off < REG_NS_L1ENTRY_ATTR NR_VIDS 0 →
       host_mmio_reg_access_mask k off true = 0) ∧
    (∀ k : RegOpsKind,
       host_mmio_reg_access_mask k REG_NS_CTRL0 true = 0 ∧
       host_mmio_reg_access_mask k REG_NS_CTRL1 true = 0 ∧
       host_mmio_reg_access_mask k REG_NS_CFG true = 0 ∧
       host_mmio_reg_access_mask k REG_NS_ALL_INVALIDATION true = 0 ∧
       host_mmio_reg_access_mask k REG_NS_RANGE_INVALIDATION true = 0 ∧
       host_mmio_reg_access_mask k REG_NS_RANGE_INVALIDATION_START_PPN true = 0 ∧
       host_mmio_reg_access_mask k REG_NS_RANGE_INVALIDATION_END_PPN true = 0) ∧
    (∀ (k : RegOpsKind) (off : Nat) (w : Bool), mask_table_hit k off = false →
       host_mmio_reg_access_mask k off w = 0) := by
  refine ⟨?_, ?_, ?_, ?_⟩
  · intro k off h
    simp only [host_mmio_reg_access_mask] at h
    simp only [eq_self_iff_true, if_true, Nat.zero_and] at h
    split_ifs at h with h1 h2 h3 h4 h5 h6
    · exact absurd rfl h
    · exact Or.inl h2
    · exact absurd rfl h
    · exact absurd rfl h
    · exact absurd rfl h
    · exact absurd rfl h
    · cases k with
      | v1_v2 => exact Or.inr (Or.inl ⟨rfl, v1v2_write_mask_nonzero off h⟩)
      | v9 => exact Or.inr (Or.inr ⟨rfl, v9_write_mask_nonzero off h⟩)
  · intro k off hlo hhi
    simp only [REG_NS_L1ENTRY_L2TABLE_ADDR, REG_NS_L1ENTRY_ATTR, NR_VIDS] at hlo hhi
    have hne : ∀ c : Nat, c < 0x4000 → ¬(off = c) := by intro c hc he; omega
    simp only [host_mmio_reg_access_mask]
    rw [if_neg (hne _ (by norm_num [REG_NS_CFG]))]
    rw [if_neg (hne _ (by norm_num [REG_NS_INTERRUPT_CLEAR]))]
    rw [if_neg (hne _ (by norm_num [REG_NS_INFO]))]
    rw [if_neg (hne _ (by norm_num [REG_NS_FAULT_STATUS]))]
    rw [if_pos (by
      simp only [REG_NS_L1ENTRY_L2TABLE_ADDR, REG_NS_L1ENTRY_ATTR, NR_VIDS]
      omega)]
    simp
  · intro k; cases k <;> exact ⟨by decide, by decide, by decide, by decide, by decide,
      by decide, by decide⟩
  · intro k off w hno
    cases k with
    | v1_v2 =>
      simp only [mask_table_hit] at hno
      simp only [host_mmio_reg_access_mask, host_mmio_reg_access_mask_v1_v2]
      by_cases g1 : off = REG_NS_CFG
      · rw [if_pos g1] at hno; exact absurd hno (by decide)
      rw [if_neg g1] at hno ⊢
      by_cases g2 : off = REG_NS_INTERRUPT_CLEAR
      · rw [if_pos g2] at hno; exact absurd hno (by decide)
      rw [if_neg g2] at hno ⊢
      by_cases g3 : off = REG_NS_INFO
      · rw [if_pos g3] at hno; exact absurd hno (by decide)
      rw [if_neg g3] at hno ⊢
      by_cases g4 : off = REG_NS_FAULT_STATUS
      · rw [if_pos g4] at hno; exact absurd hno (by decide)
      rw [if_neg g4] at hno ⊢
      by_cases g5 : REG_NS_L1ENTRY_L2TABLE_ADDR 0 0 ≤ off ∧ off < REG_NS_L1ENTRY_ATTR NR_VIDS 0
      · rw [if_pos g5] at hno; exact absurd hno (by decide)
      rw [if_neg g5] at hno ⊢
      by_cases g6 : off &&& not64 REG_NS_FAULT_VID_MASK = REG_NS_FAULT_PA_LOW 0 ∨ off &&& not64 REG_NS_FAULT_VID_MASK = REG_NS_FAULT_PA_HIGH 0 ∨ off &&& not64 REG_NS_FAULT_VID_MASK = REG_NS_FAULT_INFO 0
      · rw [if_pos g6] at hno; exact absurd hno (by decide)
      rw [if_neg g6] at hno ⊢
      by_cases g7 : off = REG_NS_CTRL0
      · rw [if_pos g7] at hno; exact absurd hno (by decide)
      rw [if_neg g7] at hno ⊢
      by_cases g8 : off = REG_NS_CTRL1
      · rw [if_pos g8] at hno; exact absurd hno (by decide)
      rw [if_neg g8] at hno ⊢
      by_cases g9 : off = REG_NS_READ_MPTC
      · rw [if_pos g9] at hno; exact absurd hno (by decide)
      rw [if_neg g9] at hno ⊢
      by_cases g10 : off = REG_NS_READ_MPTC_TAG_PPN
      · rw [if_pos g10] at hno; exact absurd hno (by decide)
      rw [if_neg g10] at hno ⊢
      by_cases g11 : off = REG_NS_READ_MPTC_TAG_OTHERS
      · rw [if_pos g11] at hno; exact absurd hno (by decide)
      rw [if_neg g11] at hno ⊢
      by_cases g12 : off = REG_NS_READ_MPTC_DATA
      · rw [if_pos g12] at hno; exact absurd hno (by decide)
      rw [if_neg g12] at hno ⊢

    | v9 =>
      simp only [mask_table_hit] at hno
      simp only [host_mmio_reg_access_mask, host_mmio_reg_access_mask_v9]
      by_cases g1 : off = REG_NS_CFG
      · rw [if_pos g1] at hno; exact absurd hno (by decide)
      rw [if_neg g1] at hno ⊢
      by_cases g2 : off = REG_NS_INTERRUPT_CLEAR
      · rw [if_pos g2] at hno; exact absurd hno (by decide)
      rw [if_neg g2] at hno ⊢
      by_cases g3 : off = REG_NS_INFO
      · rw [if_pos g3] at hno; exact absurd hno (by decide)
      rw [if_neg g3] at hno ⊢
      by_cases g4 : off = REG_NS_FAULT_STATUS
      · rw [if_pos g4] at hno; exact absurd hno (by decide)
      rw [if_neg g4] at hno ⊢
      by_cases g5 : REG_NS_L1ENTRY_L2TABLE_ADDR 0 0 ≤ off ∧ off < REG_NS_L1ENTRY_ATTR NR_VIDS 0
      · rw [if_pos g5] at hno; exact absurd hno (by decide)
      rw [if_neg g5] at hno ⊢
      by_cases g6 : off &&& not64 REG_NS_FAULT_VID_MASK = REG_NS_FAULT_PA_LOW 0 ∨ off &&& not64 REG_NS_FAULT_VID_MASK = REG_NS_FAULT_PA_HIGH 0 ∨ off &&& not64 REG_NS_FAULT_VID_MASK = REG_NS_FAULT_INFO 0
      · rw [if_pos g6] at hno; exact absurd hno (by decide)
      rw [if_neg g6] at hno ⊢
      by_cases g7 : off = REG_NS_CTRL0
      · rw [if_pos g7] at hno; exact absurd hno (by decide)
      rw [if_neg g7] at hno ⊢
      by_cases g8 : off = REG_NS_V9_CTRL_ERR_RESP_T_PER_VID_SET
      · rw [if_pos g8] at hno; exact absurd hno (by decide)
      rw [if_neg g8] at hno ⊢
      by_cases g9 : off = REG_NS_V9_CTRL_PROT_EN_PER_VID_SET
      · rw [if_pos g9] at hno; exact absurd hno (by decide)
      rw [if_neg g9] at hno ⊢
      by_cases g10 : off = REG_NS_V9_READ_STLB
      · rw [if_pos g10] at hno; exact absurd hno (by decide)
      rw [if_neg g10] at hno ⊢
      by_cases g11 : off = REG_NS_V9_READ_STLB_TPN
      · rw [if_pos g11] at hno; exact absurd hno (by decide)
      rw [if_neg g11] at hno ⊢
      by_cases g12 : off = REG_NS_V9_READ_STLB_TAG_PPN
      · rw [if_pos g12] at hno; exact absurd hno (by decide)
      rw [if_neg g12] at hno ⊢
      by_cases g13 : off = REG_NS_V9_READ_STLB_TAG_OTHERS
      · rw [if_pos g13] at hno; exact absurd hno (by decide)
      rw [if_neg g13] at hno ⊢
      by_cases g14 : off = REG_NS_V9_READ_STLB_DATA
      · rw [if_pos g14] at hno; exact absurd hno (by decide)
      rw [if_neg g14] at hno ⊢
      by_cases g15 : off = REG_NS_V9_MPTC_INFO
      · rw [if_pos g15] at hno; exact absurd hno (by decide)
      rw [if_neg g15] at hno ⊢
      by_cases g16 : off = REG_NS_V9_READ_MPTC
      · rw [if_pos g16] at hno; exact absurd hno (by decide)
      rw [if_neg g16] at hno ⊢
      by_cases g17 : off = REG_NS_V9_READ_MPTC_TAG_PPN
      · rw [if_pos g17] at hno; exact absurd hno (by decide)
      rw [if_neg g17] at hno ⊢
      by_cases g18 : off = REG_NS_V9_READ_MPTC_TAG_OTHERS
      · rw [if_pos g18] at hno; exact absurd hno (by decide)
      rw [if_neg g18] at hno ⊢
      by_cases g19 : off = REG_NS_V9_READ_MPTC_DATA
      · rw [if_pos g19] at hno; exact absurd hno (by decide)
      rw [if_neg g19] at hno ⊢
      by_cases g20 : off = REG_NS_V9_PMMU_INFO
      · rw [if_pos g20] at hno; exact absurd hno (by decide)
      rw [if_neg g20] at hno ⊢
      by_cases g21 : off = REG_NS_V9_READ_PTLB
      · rw [if_pos g21] at hno; exact absurd hno (by decide)
      rw [if_neg g21] at hno ⊢
      by_cases g22 : off = REG_NS_V9_READ_PTLB_TAG
      · rw [if_pos g22] at hno; exact absurd hno (by decide)
      rw [if_neg g22] at hno ⊢
      by_cases g23 : off = REG_NS_V9_READ_PTLB_DATA_S1_EN_PPN_AP
      · rw [if_pos g23] at hno; exact absurd hno (by decide)
      rw [if_neg g23] at hno ⊢
      by_cases g24 : off = REG_NS_V9_READ_PTLB_DATA_S1_DIS_AP_LIST
      · rw [if_pos g24] at hno; exact absurd hno (by decide)
      rw [if_neg g24] at hno ⊢
      by_cases g25 : off = REG_NS_V9_PMMU_INDICATOR
      · rw [if_pos g25] at hno; exact absurd hno (by decide)
      rw [if_neg g25] at hno ⊢
      by_cases g26 : off = REG_NS_V9_SWALKER_INFO
      · rw [if_pos g26] at hno; exact absurd hno (by decide)
      rw [if_neg g26] at hno ⊢
      by_cases g27 : REG_NS_V9_PMMU_PTLB_INFO 0 ≤ off ∧ off < REG_NS_V9_PMMU_PTLB_INFO V9_MAX_PTLB_NUM
      · rw [if_pos g27] at hno; exact absurd hno (by decide)
      rw [if_neg g27] at hno ⊢
      by_cases g28 : REG_NS_V9_STLB_INFO 0 ≤ off ∧ off < REG_NS_V9_STLB_INFO V9_MAX_STLB_NUM
      · rw [if_pos g28] at hno; exact absurd hno (by decide)
      rw [if_neg g28] at hno ⊢


/-- Witness for `host_mmio_mask_write_policy`: the v1/v2 `READ_MPTC`
selector is host-writable, so its non-zero write mask lands in the
allowed set. -/
theorem host_mmio_mask_write_policy_witness :
    REG_NS_READ_MPTC = REG_NS_INTERRUPT_CLEAR ∨
    (RegOpsKind.v1_v2 = RegOpsKind.v1_v2 ∧ REG_NS_READ_MPTC = REG_NS_READ_MPTC) ∨
    (RegOpsKind.v1_v2 = RegOpsKind.v9 ∧
      (REG_NS_READ_MPTC = REG_NS_V9_READ_STLB ∨ REG_NS_READ_MPTC = REG_NS_V9_READ_MPTC ∨
       REG_NS_READ_MPTC = REG_NS_V9_READ_PTLB)) :=
  host_mmio_mask_write_policy.1 .v1_v2 REG_NS_READ_MPTC (by decide)

/-- `__wait_until` exhausts all attempts when every poll fails. -/
theorem wait_until_all_fail (mask : Nat) :
    ∀ (n : Nat) (read : Nat → Nat), (∀ i, i < n → read i &&& mask ≠ mask) →
      __wait_until read mask n = (false, n) := by
  intro n
  induction n with
  | zero => intro read _; rfl
  | succ m ih =>
    intro read h
    unfold __wait_until
    rw [if_neg (h 0 (Nat.succ_pos m))]
    rw [ih (fun i => read (i + 1)) (fun i hi => h (i + 1) (by omega))]

/-- `__wait_until` succeeds exactly when some poll within the budget sees
all mask bits set. -/
theorem wait_until_succeeds_iff (mask : Nat) :
    ∀ (n : Nat) (read : Nat → Nat),
      (__wait_until read mask n).1 = true ↔ ∃ j, j < n ∧ read j &&& mask = mask := by
  intro n
  induction n with
  | zero =>
    intro read
    constructor
    · intro h; exact absurd h (by simp [__wait_until])
    · rintro ⟨j, hj, _⟩; omega
  | succ m ih =>
    intro read
    unfold __wait_until
    by_cases h0 : read 0 &&& mask = mask
    · rw [if_pos h0]
      constructor
      · intro _
        exact ⟨0, Nat.succ_pos m, h0⟩
      · intro _
        rfl
    · rw [if_neg h0]
      constructor
      · intro h
        rcases (ih (fun i => read (i + 1))).mp h with ⟨j, hj, hv⟩
        exact ⟨j + 1, by omega, hv⟩
      · rintro ⟨j, hj, hv⟩
        cases j with
        | zero => exact absurd hv h0
        | succ i => exact (ih (fun i => read (i + 1))).mpr ⟨i, by omega, hv⟩

/-- Kick writes are never counted among `SYNC_COMP` poll reads. -/
theorem countP_sync_reads (c c' o : Nat) (v : Nat → Nat) (n : Nat) :
    List.countP (fun e => e == Ev.wr c REG_NS_SYNC_CMD SYNC_CMD_SYNC)
      ((List.range n).map (fun j => Ev.rd c' o (v j))) = 0 := by
  rw [List.countP_eq_zero]
  intro e he
  rcases List.mem_map.mp he with ⟨j, _, rfl⟩
  simp

/-- The slow-path retry loop when every poll of every attempt fails:
each remaining attempt issues one kick and burns its whole window. -/
theorem barrier_slow_go_all_fail (read : Nat → Nat → Nat) (c : Nat) :
    ∀ (fuel a t : Nat),
      (∀ b j, read b j &&& SYNC_COMP_COMPLETE ≠ SYNC_COMP_COMPLETE) →
      barrier_slow_go read c fuel a t =
        (List.range fuel).flatMap (fun q =>
          Ev.wr c REG_NS_SYNC_CMD SYNC_CMD_SYNC ::
          (List.range (t * SYNC_TIMEOUT_MULTIPLIER ^ q)).map
            (fun j => Ev.rd c REG_NS_SYNC_COMP (read (a + q) j))) := by
  intro fuel
  induction fuel with
  | zero => intro a t _; rfl
  | succ f ih =>
    intro a t hf
    unfold barrier_slow_go
    rw [wait_until_all_fail SYNC_COMP_COMPLETE t (read a) (fun i _ => hf a i)]
    simp only [Bool.false_eq_true, if_false]
    rw [ih (a + 1) (t * SYNC_TIMEOUT_MULTIPLIER) hf]
    rw [List.range_succ_eq_map]
    simp only [List.flatMap_cons, List.flatMap_map, __sync_cmd_start]
    congr 1
    · simp [pow_zero]
    · apply List.flatMap_congr
      intro q _
      have h1 : t * SYNC_TIMEOUT_MULTIPLIER * SYNC_TIMEOUT_MULTIPLIER ^ q =
          t * SYNC_TIMEOUT_MULTIPLIER ^ (q + 1) := by ring
      have h2 : a + 1 + q = a + (q + 1) := by omega
      rw [h1, h2]

/-- The slow-path kick count when the first `a` attempts fail and attempt
`a` sees a completed poll within its window: exactly `a + 1` kicks. -/
theorem barrier_slow_go_count (read : Nat → Nat → Nat) (c : Nat) :
    ∀ (a fuel a0 t : Nat), a < fuel →
      (∀ b, b < a → ∀ i, i < t * SYNC_TIMEOUT_MULTIPLIER ^ b →
        read (a0 + b) i &&& SYNC_COMP_COMPLETE ≠ SYNC_COMP_COMPLETE) →
      (∃ j, j < t * SYNC_TIMEOUT_MULTIPLIER ^ a ∧
        read (a0 + a) j &&& SYNC_COMP_COMPLETE = SYNC_COMP_COMPLETE) →
      sync_cmd_count c (barrier_slow_go read c fuel a0 t) = a + 1 := by
  intro a
  induction a with
  | zero =>
    intro fuel a0 t hlt _ hsucc
    obtain ⟨f, rfl⟩ : ∃ f, fuel = f + 1 := ⟨fuel - 1, by omega⟩
    have hs1 : (__wait_until (read a0) SYNC_COMP_COMPLETE t).1 = true := by
      rcases hsucc with ⟨j, hj, hv⟩
      rw [pow_zero, Nat.mul_one] at hj
      rw [Nat.add_zero] at hv
      exact (wait_until_succeeds_iff SYNC_COMP_COMPLETE t (read a0)).mpr ⟨j, hj, hv⟩
    unfold barrier_slow_go
    rcases hE : __wait_until (read a0) SYNC_COMP_COMPLETE t with ⟨ok, n⟩
    rw [hE] at hs1
    simp only at hs1
    subst hs1
    simp only [if_true]
    unfold sync_cmd_count __sync_cmd_start
    simp [List.countP_append, List.countP_cons, countP_sync_reads]
  | succ a ih =>
    intro fuel a0 t hlt hfail hsucc
    obtain ⟨f, rfl⟩ : ∃ f, fuel = f + 1 := ⟨fuel - 1, by omega⟩
    have hw : __wait_until (read a0) SYNC_COMP_COMPLETE t = (false, t) := by
      apply wait_until_all_fail
      intro i hi
      have hfi := hfail 0 (Nat.succ_pos a) i
        (by rw [pow_zero, Nat.mul_one]; exact hi)
      rw [Nat.add_zero] at hfi
      exact hfi
    have ihv := ih f (a0 + 1) (t * SYNC_TIMEOUT_MULTIPLIER) (by omega)
      (by
        intro b hb i hi
        have hpow : t * SYNC_TIMEOUT_MULTIPLIER * SYNC_TIMEOUT_MULTIPLIER ^ b =
            t * SYNC_TIMEOUT_MULTIPLIER ^ (b + 1) := by ring
        have hfi := hfail (b + 1) (by omega) i (by omega)
        have hsh : a0 + 1 + b = a0 + (b + 1) := by omega
        rw [hsh]
        exact hfi)
      (by
        rcases hsucc with ⟨j, hj, hv⟩
        have hpow : t * SYNC_TIMEOUT_MULTIPLIER * SYNC_TIMEOUT_MULTIPLIER ^ a =
            t * SYNC_TIMEOUT_MULTIPLIER ^ (a + 1) := by ring
        refine ⟨j, by omega, ?_⟩
        have hsh : a0 + 1 + a = a0 + (a + 1) := by omega
        rw [hsh]
        exact hv)
    unfold barrier_slow_go
    rw [hw]
    simp only [Bool.false_eq_true, if_false]
    unfold sync_cmd_count at ihv ⊢
    unfold __sync_cmd_start
    simp [List.countP_append, List.countP_cons, countP_sync_reads, ihv]

/-- C9: when a child's `SYNC_COMP` never reports `COMPLETE`, the slow
path issues exactly `SYNC_MAX_RETRIES = 5` `SYNC_CMD` kicks whose
polling windows are `5, 15, 45, 135, 405` attempts (timeout 5 multiplied
by 3 after each failed attempt), and then returns (the function yields
only its trace — no error is signalled); if `COMPLETE` shows up during
attempt `a`'s window, the kick for attempt `a` is the last one issued. -/
theorem sync_slow_path_retry_schedule :
    ((List.range SYNC_MAX_RETRIES).map
        (fun a => SYNC_TIMEOUT * SYNC_TIMEOUT_MULTIPLIER ^ a) = [5, 15, 45, 135, 405]) ∧
    (∀ (read : Nat → Nat → Nat) (c : Nat),
       (∀ a j, read a j &&& SYNC_COMP_COMPLETE ≠ SYNC_COMP_COMPLETE) →
       __invalidation_barrier_slow read c =
         (List.range SYNC_MAX_RETRIES).flatMap (fun a =>
           Ev.wr c REG_NS_SYNC_CMD SYNC_CMD_SYNC ::
           (List.range (SYNC_TIMEOUT * SYNC_TIMEOUT_MULTIPLIER ^ a)).map
             (fun j => Ev.rd c REG_NS_SYNC_COMP (read a j))) ∧
       sync_cmd_count c (__invalidation_barrier_slow read c) = SYNC_MAX_RETRIES) ∧
    (∀ (read : Nat → Nat → Nat) (c a : Nat), a < SYNC_MAX_RETRIES →
       (∀ b, b < a → ∀ i, i < SYNC_TIMEOUT * SYNC_TIMEOUT_MULTIPLIER ^ b →
          read b i &&& SYNC_COMP_COMPLETE ≠ SYNC_COMP_COMPLETE) →
       (∃ j, j < SYNC_TIMEOUT * SYNC_TIMEOUT_MULTIPLIER ^ a ∧
          read a j &&& SYNC_COMP_COMPLETE = SYNC_COMP_COMPLETE) →
       sync_cmd_count c (__invalidation_barrier_slow read c) = a + 1) := by
  refine ⟨by decide, ?_, ?_⟩
  · intro read c hf
    have htr := barrier_slow_go_all_fail read c SYNC_MAX_RETRIES 0 SYNC_TIMEOUT hf
    simp only [Nat.zero_add] at htr
    refine ⟨by rw [__invalidation_barrier_slow]; exact htr, ?_⟩
    rw [__invalidation_barrier_slow, htr]
    unfold sync_cmd_count
    rw [show List.range SYNC_MAX_RETRIES = [0, 1, 2, 3, 4] from rfl]
    have hz : ∀ (o : Nat) (v : Nat → Nat) (l : List Nat),
        List.countP ((fun e => e == Ev.wr c REG_NS_SYNC_CMD SYNC_CMD_SYNC) ∘
          fun j => Ev.rd c o (v j)) l = 0 := by
      intro o v l
      rw [List.countP_eq_zero]
      intro x _
      simp
    simp [List.countP_append, List.countP_cons, countP_sync_reads, hz, SYNC_MAX_RETRIES]
  · intro read c a ha hfail hsucc
    rw [__invalidation_barrier_slow]
    apply barrier_slow_go_count read c a SYNC_MAX_RETRIES 0 SYNC_TIMEOUT ha
    · intro b hb i hi
      rw [Nat.zero_add]
      exact hfail b hb i hi
    · rcases hsucc with ⟨j, hj, hv⟩
      exact ⟨j, hj, by rw [Nat.zero_add]; exact hv⟩

/-- Witness for `sync_slow_path_retry_schedule`: a child that completes
at poll 7 of attempt 2 receives exactly 3 kicks. -/
theorem sync_slow_path_retry_schedule_witness :
    sync_cmd_count 1
      (__invalidation_barrier_slow
        (fun a j => if a = 2 ∧ j = 7 then 1 else 0) 1) = 2 + 1 :=
  sync_slow_path_retry_schedule.2.2 (fun a j => if a = 2 ∧ j = 7 then 1 else 0) 1 2
    (by decide) (by decide) ⟨7, by decide, by decide⟩

set_option maxRecDepth 4096 in
/-- The unrolled loop of the source computes exactly the spec's
deterministic assignment, for every possible `NUM_CONTEXT` value. -/
theorem ctx_cfg_res_spec : ∀ m, m < 256 →
    ctx_cfg_res ALL_VIDS_BITMAP m = spec_ctx_cfg (spec_assigned_vids ALL_VIDS_BITMAP m) := by
  decide

/-- C10: the context configuration assigns the non-zero VIDs of
`ALL_VIDS_BITMAP`, in ascending bit order, to context slots 0 upward,
bounded by the hardware `NUM_CONTEXT` count; `__initialize_v2` returns
`-EINVAL` when no context can be allocated; the computed bitmap is
cached, and every later call returns the cached value with no MMIO
access. -/
theorem context_cfg_assignment_and_idempotence :
    (∀ (data : DrvData) (num_reg : Nat), data.context_cfg_valid_vid = 0 →
       __context_cfg_valid_vid data num_reg ALL_VIDS_BITMAP =
         (spec_ctx_cfg (spec_assigned_vids ALL_VIDS_BITMAP (num_reg &&& NUM_CONTEXT_MASK)),
          { data with context_cfg_valid_vid :=
              spec_ctx_cfg (spec_assigned_vids ALL_VIDS_BITMAP
                (num_reg &&& NUM_CONTEXT_MASK)) },
          [Ev.rd 0 REG_NS_NUM_CONTEXT num_reg])) ∧
    (∀ (data : DrvData) (num_reg : Nat), data.context_cfg_valid_vid = 0 →
       num_reg &&& NUM_CONTEXT_MASK = 0 →
       (__initialize_v2 data num_reg).1 = -EINVAL) ∧
    (∀ (data : DrvData) (num_reg vid_bmap : Nat), data.context_cfg_valid_vid ≠ 0 →
       __context_cfg_valid_vid data num_reg vid_bmap =
         (data.context_cfg_valid_vid, data, [])) := by
  have hlt : ∀ num_reg : Nat, num_reg &&& NUM_CONTEXT_MASK < 256 := by
    intro num_reg
    have := @Nat.and_le_right num_reg NUM_CONTEXT_MASK
    simp only [NUM_CONTEXT_MASK] at this ⊢
    omega
  refine ⟨?_, ?_, ?_⟩
  · intro data num_reg h0
    unfold __context_cfg_valid_vid
    rw [if_neg (by simp [h0])]
    rw [ctx_cfg_res_spec _ (hlt num_reg)]
  · intro data num_reg h0 hz
    have hc : (__context_cfg_valid_vid data num_reg ALL_VIDS_BITMAP).1 = 0 := by
      unfold __context_cfg_valid_vid
      rw [if_neg (by simp [h0])]
      simp only [hz]
      exact (by decide : ctx_cfg_res ALL_VIDS_BITMAP 0 = 0)
    simp only [__initialize_v2]
    rw [if_pos hc]
  · intro data num_reg vid_bmap h0
    unfold __context_cfg_valid_vid
    rw [if_pos h0]

/-- Witness for `context_cfg_assignment_and_idempotence`: a fresh v2
device with 8 hardware contexts. -/
theorem context_cfg_assignment_witness :
    __context_cfg_valid_vid ⟨0x20000000, 0⟩ 8 ALL_VIDS_BITMAP =
      (spec_ctx_cfg (spec_assigned_vids ALL_VIDS_BITMAP (8 &&& NUM_CONTEXT_MASK)),
       ⟨0x20000000,
        spec_ctx_cfg (spec_assigned_vids ALL_VIDS_BITMAP (8 &&& NUM_CONTEXT_MASK))⟩,
       [Ev.rd 0 REG_NS_NUM_CONTEXT 8]) :=
  context_cfg_assignment_and_idempotence.1 ⟨0x20000000, 0⟩ 8 rfl

/-- Every event of the slow-path retry loop is tagged with child `c`. -/
theorem barrier_slow_go_dev (read : Nat → Nat → Nat) (c : Nat) :
    ∀ (fuel a t : Nat), ∀ e ∈ barrier_slow_go read c fuel a t, e.devOf = c := by
  intro fuel
  induction fuel with
  | zero => intro a t e he; simp [barrier_slow_go] at he
  | succ f ih =>
    intro a t e he
    unfold barrier_slow_go at he
    rcases hE : __wait_until (read a) SYNC_COMP_COMPLETE t with ⟨ok, n⟩
    rw [hE] at he
    simp only [__sync_cmd_start, List.cons_append, List.nil_append, List.mem_cons,
      List.mem_append, List.mem_map] at he
    rcases he with rfl | ⟨j, _, rfl⟩ | he
    · rfl
    · rfl
    · cases ok with
      | true => simp at he
      | false => exact ih (a + 1) (t * SYNC_TIMEOUT_MULTIPLIER) e (by simpa using he)

/-- Each event of one child's completion phase is tagged with that child. -/
theorem barrier_complete_child_dev (c : Nat) (o : SyncOracle) :
    ∀ e ∈ barrier_complete_child c o, e.devOf = c := by
  intro e he
  unfold barrier_complete_child at he
  rcases List.mem_cons.mp he with rfl | he
  · rfl
  · split_ifs at he with h
    · exact barrier_slow_go_dev o.slow c SYNC_MAX_RETRIES 0 SYNC_TIMEOUT e
        (by simpa [__invalidation_barrier_slow] using he)
    · simp at he

/-- Child-phase events carry a non-zero device tag. -/
theorem barrier_complete_children_dev (cs : List SyncOracle) :
    ∀ e ∈ barrier_complete_children cs, 1 ≤ e.devOf := by
  intro e he
  unfold barrier_complete_children at he
  rcases List.mem_flatMap.mp he with ⟨p, _, hep⟩
  have := barrier_complete_child_dev (p.1 + 1) p.2 e hep
  omega

/-- An event on a non-zero device tag is not a parent `STATUS` read. -/
theorem not_status_read_of_dev (e : Ev) (h : e.devOf ≠ 0) : e.isStatusRead = false := by
  cases e with
  | rd d o v =>
    cases d with
    | zero => exact absurd rfl h
    | succ n => rfl
  | wr d o v => rfl

/-- No event of `__initialize_v2` reads the `STATUS` register. -/
theorem initialize_v2_no_status (data : DrvData) (n : Nat) :
    (__initialize_v2 data n).2.2.countP (fun e => e.isStatusRead) = 0 := by
  simp only [__initialize_v2, __context_cfg_valid_vid]
  split_ifs <;>
    simp [Ev.isStatusRead, List.countP_cons, List.countP_append,
      REG_NS_NUM_CONTEXT, REG_NS_STATUS, REG_NS_CONTEXT_CFG_VALID_VID]

/-- The child-phase of the completion barrier never reads `STATUS`. -/
theorem countP_status_children (cs : List SyncOracle) :
    (barrier_complete_children cs).countP (fun e => e.isStatusRead) = 0 := by
  rw [List.countP_eq_zero]
  intro e he
  have h1 := barrier_complete_children_dev cs e he
  simp [not_status_read_of_dev e (by omega)]

/-- The barrier-init kicks never read `STATUS`. -/
theorem countP_status_barrier_init (n : Nat) :
    (__invalidation_barrier_init n).countP (fun e => e.isStatusRead) = 0 := by
  rw [List.countP_eq_zero]
  intro e he
  simp only [__invalidation_barrier_init] at he
  rcases List.mem_flatMap.mp he with ⟨i, _, hei⟩
  simp only [__sync_cmd_start, List.mem_singleton] at hei
  subst hei
  simp [Ev.isStatusRead]

/-- C3 (code bug): the v9 register-ops path never caches the hardware
`VERSION` into the driver data — `ops_v9.init` is `__initialize_v2`,
which leaves `data->version` untouched — so on a v9 device (whose data
the framework zero-initializes) the guard
`is_version(dev, V2) || is_version(dev, V9)` of
`__invalidation_barrier_complete` is always false and the `STATUS`
busy-wait the claim requires never executes: a v9 resume performs no
`STATUS` read at all, for every hardware oracle. -/
theorem v9_busy_wait_never_runs :
    (∀ (data : DrvData) (o : DevOracle),
      (reg_ops_init .v9 data o).2.1.version = data.version) ∧
    (∀ o : DevOracle,
      (s2mpu_resume .v9 ⟨0, 0⟩ o []).2.2.countP (fun e => e.isStatusRead) = 0) ∧
    (s2mpu_resume .v9 ⟨0, 0⟩ sample_oracle []).1 = 0 ∧
    (s2mpu_suspend .v9 ⟨0, 0⟩ sample_oracle []).2.2.countP
      (fun e => e.isStatusRead) = 0 := by
  refine ⟨?_, ?_, by decide, by decide⟩
  · intro data o
    simp only [reg_ops_init, __initialize_v2, __context_cfg_valid_vid]
    split_ifs <;> rfl
  · intro o
    have hver : (reg_ops_init .v9 ⟨0, 0⟩ o).2.1.version = 0 := by
      simp only [reg_ops_init, __initialize_v2, __context_cfg_valid_vid]
      split_ifs <;> rfl
    have h2f : is_version (reg_ops_init .v9 ⟨0, 0⟩ o).2.1 S2MPU_VERSION_2 = false := by
      simp [is_version, hver, S2MPU_VERSION_2]
    have h9f : is_version (reg_ops_init .v9 ⟨0, 0⟩ o).2.1 S2MPU_VERSION_9 = false := by
      simp [is_version, hver, S2MPU_VERSION_9]
    simp only [s2mpu_resume, initialize_with_mpt, initialize_dev]
    split_ifs with h
    · exact initialize_v2_no_status ⟨0, 0⟩ o.num_context_reg
    · simp only [List.countP_append]
      have hinit : (reg_ops_init .v9 ⟨0, 0⟩ o).2.2.countP (fun e => e.isStatusRead) = 0 :=
        initialize_v2_no_status ⟨0, 0⟩ o.num_context_reg
      have hinval : (__all_invalidation (reg_ops_init .v9 ⟨0, 0⟩ o).2.1 o).countP
          (fun e => e.isStatusRead) = 0 := by
        simp only [__all_invalidation, __invalidation_barrier_complete, h2f, h9f,
          Bool.or_self, Bool.false_eq_true, if_false, List.append_nil,
          List.countP_cons, List.countP_append]
        rw [countP_status_barrier_init, countP_status_children]
        simp [Ev.isStatusRead]
      have hctrl : (reg_ops_set_control_regs .v9 (reg_ops_init .v9 ⟨0, 0⟩ o).2.1).countP
          (fun e => e.isStatusRead) = 0 := by
        simp [reg_ops_set_control_regs, __set_control_regs_v9, List.countP_cons,
          Ev.isStatusRead]
      simp [hinit, hinval, hctrl]

/-- A successful `initialize_dev` had a successful `reg_ops->init`. -/
theorem initialize_dev_ok (k : RegOpsKind) (data : DrvData) (o : DevOracle) (enc : List Ev)
    (hok : (initialize_dev k data o enc).1 = 0) :
    (reg_ops_init k data o).1 = 0 := by
  simp only [initialize_dev] at hok
  split_ifs at hok with h
  · exact hok
  · omega

/-- Trace and state of a successful `initialize_dev`: init trace, the
external encoder, the all-invalidation, then the control registers. -/
theorem initialize_dev_trace (k : RegOpsKind) (data : DrvData) (o : DevOracle) (enc : List Ev)
    (hok : (initialize_dev k data o enc).1 = 0) :
    (initialize_dev k data o enc).2.2 =
      (reg_ops_init k data o).2.2 ++ enc ++
        __all_invalidation (reg_ops_init k data o).2.1 o ++
        reg_ops_set_control_regs k (reg_ops_init k data o).2.1 ∧
    (initialize_dev k data o enc).2.1 = (reg_ops_init k data o).2.1 := by
  simp only [initialize_dev] at hok ⊢
  split_ifs at hok ⊢ with h
  · exact absurd hok h
  · exact ⟨rfl, rfl⟩

/-- No event of `__initialize_v2` writes an `L1ENTRY_*` register. -/
theorem initialize_v2_no_l1 (data : DrvData) (n : Nat) :
    ∀ e ∈ (__initialize_v2 data n).2.2, e.isL1entryWrite = false := by
  simp only [__initialize_v2, __context_cfg_valid_vid]
  split_ifs <;>
    simp [List.forall_mem_cons, Ev.isL1entryWrite, REG_NS_L1ENTRY_L2TABLE_ADDR,
      REG_NS_L1ENTRY_ATTR, NR_VIDS, REG_NS_CONTEXT_CFG_VALID_VID]

/-- No event of `reg_ops->init` writes an `L1ENTRY_*` register. -/
theorem reg_ops_init_no_l1 (k : RegOpsKind) (data : DrvData) (o : DevOracle) :
    ∀ e ∈ (reg_ops_init k data o).2.2, e.isL1entryWrite = false := by
  cases k with
  | v9 => exact initialize_v2_no_l1 data o.num_context_reg
  | v1_v2 =>
    intro e he
    simp only [reg_ops_init, __initialize_v1v2] at he
    by_cases hB : (if data.version = 0 then { data with version := o.version_reg }
        else data).version &&& VERSION_CHECK_MASK = S2MPU_VERSION_1
    · rw [if_pos hB] at he
      by_cases hA : data.version = 0
      · simp [hA] at he
        subst he
        rfl
      · simp [hA] at he
    · rw [if_neg hB] at he
      by_cases hC : (if data.version = 0 then { data with version := o.version_reg }
          else data).version &&& VERSION_CHECK_MASK = S2MPU_VERSION_2
      · rw [if_pos hC] at he
        by_cases hA : data.version = 0
        · simp only [hA, reduceIte, List.cons_append, List.nil_append,
            List.mem_cons] at he
          rcases he with rfl | he
          · rfl
          · exact initialize_v2_no_l1 _ o.num_context_reg e he
        · simp only [hA, reduceIte, List.nil_append] at he
          exact initialize_v2_no_l1 _ o.num_context_reg e he
      · rw [if_neg hC] at he
        by_cases hA : data.version = 0
        · simp [hA] at he
          subst he
          rfl
        · simp [hA] at he

/-- A successful `__initialize_v2` trace ends with the
`CONTEXT_CFG_VALID_VID` write. -/
theorem initialize_v2_success_ctx (data : DrvData) (n : Nat)
    (hok : (__initialize_v2 data n).1 = 0) :
    ∃ pre v, (__initialize_v2 data n).2.2 =
      pre ++ [Ev.wr 0 REG_NS_CONTEXT_CFG_VALID_VID v] := by
  simp only [__initialize_v2] at hok ⊢
  split_ifs at hok ⊢ with h
  · simp [EINVAL] at hok
  · exact ⟨(__context_cfg_valid_vid data n ALL_VIDS_BITMAP).2.2,
      (__context_cfg_valid_vid data n ALL_VIDS_BITMAP).1, rfl⟩

/-- A successful v9 or v2 `reg_ops->init` trace ends with the
`CONTEXT_CFG_VALID_VID` write. -/
theorem reg_ops_init_success_ctx (k : RegOpsKind) (data : DrvData) (o : DevOracle)
    (hok : (reg_ops_init k data o).1 = 0)
    (hk : k = .v9 ∨ (k = .v1_v2 ∧
      is_version (reg_ops_init k data o).2.1 S2MPU_VERSION_2 = true)) :
    ∃ pre v, (reg_ops_init k data o).2.2 =
      pre ++ [Ev.wr 0 REG_NS_CONTEXT_CFG_VALID_VID v] := by
  cases k with
  | v9 => exact initialize_v2_success_ctx data o.num_context_reg hok
  | v1_v2 =>
    rcases hk with hk | hk
    · exact absurd hk (by simp)
    have hv2 := hk.2
    simp only [reg_ops_init, __initialize_v1v2] at hok hv2 ⊢
    by_cases hB : (if data.version = 0 then { data with version := o.version_reg }
        else data).version &&& VERSION_CHECK_MASK = S2MPU_VERSION_1
    · rw [if_pos hB] at hv2
      exfalso
      simp only [is_version, beq_iff_eq] at hv2
      rw [hB] at hv2
      exact absurd hv2 (by decide)
    · rw [if_neg hB] at hok ⊢
      by_cases hC : (if data.version = 0 then { data with version := o.version_reg }
          else data).version &&& VERSION_CHECK_MASK = S2MPU_VERSION_2
      · rw [if_pos hC] at hok ⊢
        rcases initialize_v2_success_ctx _ o.num_context_reg hok with ⟨pre, v, hv⟩
        refine ⟨(if data.version = 0 then [Ev.rd 0 REG_NS_VERSION o.version_reg]
          else ([] : List Ev)) ++ pre, v, ?_⟩
        show (if data.version = 0 then [Ev.rd 0 REG_NS_VERSION o.version_reg]
          else ([] : List Ev)) ++ (__initialize_v2 _ o.num_context_reg).2.2 = _
        rw [hv, ← List.append_assoc]
      · rw [if_neg hC] at hok
        simp [EINVAL] at hok

/-- The control-register sequence of v1/v2 ends with the `CTRL0` write,
whatever precedes it. -/
theorem set_control_regs_getLast (d : DrvData) (A : List Ev) :
    (A ++ __set_control_regs d).getLast? =
      some (Ev.wr 0 REG_NS_CTRL0 (CTRL0_ENABLE ||| CTRL0_INTERRUPT_ENABLE |||
        (if is_version d S2MPU_VERSION_2 then CTRL0_FAULT_RESP_TYPE_DECERR
         else CTRL0_FAULT_RESP_TYPE_SLVERR))) := by
  rw [show __set_control_regs d =
      [Ev.wr 0 REG_NS_INTERRUPT_ENABLE_PER_VID_SET ALL_VIDS_BITMAP,
       Ev.wr 0 REG_NS_CFG 0, Ev.wr 0 REG_NS_CTRL1 0] ++
      [Ev.wr 0 REG_NS_CTRL0 (CTRL0_ENABLE ||| CTRL0_INTERRUPT_ENABLE |||
        (if is_version d S2MPU_VERSION_2 then CTRL0_FAULT_RESP_TYPE_DECERR
         else CTRL0_FAULT_RESP_TYPE_SLVERR))] from rfl]
  rw [← List.append_assoc]
  exact List.getLast?_concat _

/-- The v9 control-register sequence ends with the protection-enable
write followed only by the MPTW attribute write. -/
theorem set_v9_concat (A : List Ev) :
    A ++ __set_control_regs_v9 =
      (A ++ [Ev.wr 0 REG_NS_V9_CTRL_ERR_RESP_T_PER_VID_SET ALL_VIDS_BITMAP,
             Ev.wr 0 REG_NS_INTERRUPT_ENABLE_PER_VID_SET ALL_VIDS_BITMAP,
             Ev.wr 0 REG_NS_CTRL0 0]) ++
      [Ev.wr 0 REG_NS_V9_CTRL_PROT_EN_PER_VID_SET ALL_VIDS_BITMAP,
       Ev.wr 0 REG_NS_V9_CFG_MPTW_ATTRIBUTE 0] := by
  simp [__set_control_regs_v9]

/-- The v1/v2 final `CTRL0` value always has the enable bits set. -/
theorem ctrl0_value_bits (d : DrvData) :
    (CTRL0_ENABLE ||| CTRL0_INTERRUPT_ENABLE |||
      (if is_version d S2MPU_VERSION_2 then CTRL0_FAULT_RESP_TYPE_DECERR
       else CTRL0_FAULT_RESP_TYPE_SLVERR)) &&& CTRL0_ENABLE = CTRL0_ENABLE ∧
    (CTRL0_ENABLE ||| CTRL0_INTERRUPT_ENABLE |||
      (if is_version d S2MPU_VERSION_2 then CTRL0_FAULT_RESP_TYPE_DECERR
       else CTRL0_FAULT_RESP_TYPE_SLVERR)) &&& CTRL0_INTERRUPT_ENABLE =
      CTRL0_INTERRUPT_ENABLE := by
  split_ifs <;> exact ⟨by decide, by decide⟩

/-- C2 (amended): in every successful v2/v9 bring-up (resume or
suspend), the `CONTEXT_CFG_VALID_VID` MMIO write strictly precedes every
`L1ENTRY_*` write; on v1/v2 the device-enable `CTRL0` write is the last
MMIO access of the bring-up, while on v9 the enable write
(`V9_CTRL_PROT_EN_PER_VID_SET ← ALL_VIDS`) is followed only by the
`V9_CFG_MPTW_ATTRIBUTE` configuration write. -/
theorem bringup_ctx_cfg_order (k : RegOpsKind) (data : DrvData) (o : DevOracle)
    (enc : List Ev) (ret : Int) (data' : DrvData) (tr : List Ev)
    (hpath : (ret, data', tr) = s2mpu_resume k data o enc ∨
             (ret, data', tr) = s2mpu_suspend k data o enc)
    (hok : ret = 0) :
    (k = .v9 ∨ (k = .v1_v2 ∧ is_version data' S2MPU_VERSION_2 = true) →
      ∃ pre post, tr = pre ++ post ∧
        (∃ v, Ev.wr 0 REG_NS_CONTEXT_CFG_VALID_VID v ∈ pre) ∧
        (∀ e ∈ pre, e.isL1entryWrite = false)) ∧
    (k = .v1_v2 →
      ∃ v, tr.getLast? = some (Ev.wr 0 REG_NS_CTRL0 v) ∧
        v &&& CTRL0_ENABLE = CTRL0_ENABLE) ∧
    (k = .v9 →
      ∃ pre2, tr = pre2 ++ [Ev.wr 0 REG_NS_V9_CTRL_PROT_EN_PER_VID_SET ALL_VIDS_BITMAP,
                            Ev.wr 0 REG_NS_V9_CFG_MPTW_ATTRIBUTE 0]) := by
  have hE : (ret, data', tr) = initialize_dev k data o enc := by
    rcases hpath with h | h <;> exact h
  have hret : (initialize_dev k data o enc).1 = 0 := by rw [← hE]; exact hok
  have htr : (initialize_dev k data o enc).2.2 = tr := by rw [← hE]
  have hdata : (initialize_dev k data o enc).2.1 = data' := by rw [← hE]
  obtain ⟨T1, T2⟩ := initialize_dev_trace k data o enc hret
  have hki : (reg_ops_init k data o).1 = 0 := initialize_dev_ok k data o enc hret
  have htr' : tr = (reg_ops_init k data o).2.2 ++ enc ++
      __all_invalidation (reg_ops_init k data o).2.1 o ++
      reg_ops_set_control_regs k (reg_ops_init k data o).2.1 := by
    rw [← htr, T1]
  have hd' : data' = (reg_ops_init k data o).2.1 := by rw [← hdata, T2]
  refine ⟨?_, ?_, ?_⟩
  · intro hk
    have hk' : k = .v9 ∨ (k = .v1_v2 ∧
        is_version (reg_ops_init k data o).2.1 S2MPU_VERSION_2 = true) := by
      rcases hk with h | ⟨h1, h2⟩
      · exact Or.inl h
      · exact Or.inr ⟨h1, by rw [← hd']; exact h2⟩
    rcases reg_ops_init_success_ctx k data o hki hk' with ⟨pre0, v, hpre⟩
    refine ⟨(reg_ops_init k data o).2.2,
      enc ++ (__all_invalidation (reg_ops_init k data o).2.1 o ++
        reg_ops_set_control_regs k (reg_ops_init k data o).2.1), ?_, ⟨v, ?_⟩,
      reg_ops_init_no_l1 k data o⟩
    · rw [htr']
      simp [List.append_assoc]
    · rw [hpre]
      simp
  · rintro rfl
    refine ⟨CTRL0_ENABLE ||| CTRL0_INTERRUPT_ENABLE |||
      (if is_version (reg_ops_init .v1_v2 data o).2.1 S2MPU_VERSION_2 then
        CTRL0_FAULT_RESP_TYPE_DECERR else CTRL0_FAULT_RESP_TYPE_SLVERR), ?_,
      (ctrl0_value_bits _).1⟩
    rw [htr']
    exact set_control_regs_getLast _ _
  · rintro rfl
    refine ⟨((reg_ops_init .v9 data o).2.2 ++ enc ++
      __all_invalidation (reg_ops_init .v9 data o).2.1 o) ++
      [Ev.wr 0 REG_NS_V9_CTRL_ERR_RESP_T_PER_VID_SET ALL_VIDS_BITMAP,
       Ev.wr 0 REG_NS_INTERRUPT_ENABLE_PER_VID_SET ALL_VIDS_BITMAP,
       Ev.wr 0 REG_NS_CTRL0 0], ?_⟩
    rw [htr']
    exact set_v9_concat _

/-- Counterexample to C2 as stated: on a v9 resume the device-enable
write is not the last MMIO access — the `V9_CFG_MPTW_ATTRIBUTE` write
follows it. -/
theorem v9_enable_write_not_last :
    (s2mpu_resume .v9 ⟨0, 0⟩ sample_oracle []).1 = 0 ∧
    (s2mpu_resume .v9 ⟨0, 0⟩ sample_oracle []).2.2.getLast? =
      some (Ev.wr 0 REG_NS_V9_CFG_MPTW_ATTRIBUTE 0) ∧
    Ev.wr 0 REG_NS_V9_CTRL_PROT_EN_PER_VID_SET ALL_VIDS_BITMAP ∈
      (s2mpu_resume .v9 ⟨0, 0⟩ sample_oracle []).2.2 ∧
    (s2mpu_resume .v9 ⟨0, 0⟩ sample_oracle []).2.2.getLast? ≠
      some (Ev.wr 0 REG_NS_V9_CTRL_PROT_EN_PER_VID_SET ALL_VIDS_BITMAP) := by
  decide

/-- Witness for `bringup_ctx_cfg_order`: a v9 suspend ends with the
enable write followed only by the MPTW attribute write. -/
theorem bringup_ctx_cfg_order_witness :
    ∃ pre2, (s2mpu_suspend .v9 ⟨0, 0⟩ sample_oracle []).2.2 =
      pre2 ++ [Ev.wr 0 REG_NS_V9_CTRL_PROT_EN_PER_VID_SET ALL_VIDS_BITMAP,
               Ev.wr 0 REG_NS_V9_CFG_MPTW_ATTRIBUTE 0] :=
  (bringup_ctx_cfg_order .v9 ⟨0, 0⟩ sample_oracle []
      (s2mpu_suspend .v9 ⟨0, 0⟩ sample_oracle []).1
      (s2mpu_suspend .v9 ⟨0, 0⟩ sample_oracle []).2.1
      (s2mpu_suspend .v9 ⟨0, 0⟩ sample_oracle []).2.2
      (Or.inr rfl) (by decide)).2.2 rfl

/-- C4: every successful resume and every successful suspend leaves the
device enabled: on v1/v2 the final MMIO access is a `CTRL0` write whose
value has `ENABLE` and `INTERRUPT_ENABLE` set, with fault response
`SLVERR` on v1 and `DECERR` on v2; on v9 the trace ends with
`V9_CTRL_PROT_EN_PER_VID_SET ← ALL_VIDS_BITMAP` followed only by the
MPTW attribute write. -/
theorem resume_suspend_leave_device_enabled (k : RegOpsKind) (data : DrvData)
    (o : DevOracle) (enc : List Ev) (ret : Int) (data' : DrvData) (tr : List Ev)
    (hpath : (ret, data', tr) = s2mpu_resume k data o enc ∨
             (ret, data', tr) = s2mpu_suspend k data o enc)
    (hok : ret = 0) :
    (k = .v1_v2 →
      ∃ v, tr.getLast? = some (Ev.wr 0 REG_NS_CTRL0 v) ∧
        v &&& CTRL0_ENABLE = CTRL0_ENABLE ∧
        v &&& CTRL0_INTERRUPT_ENABLE = CTRL0_INTERRUPT_ENABLE ∧
        (is_version data' S2MPU_VERSION_1 = true →
          v = CTRL0_ENABLE ||| CTRL0_INTERRUPT_ENABLE ||| CTRL0_FAULT_RESP_TYPE_SLVERR) ∧
        (is_version data' S2MPU_VERSION_2 = true →
          v = CTRL0_ENABLE ||| CTRL0_INTERRUPT_ENABLE ||| CTRL0_FAULT_RESP_TYPE_DECERR)) ∧
    (k = .v9 →
      Ev.wr 0 REG_NS_V9_CTRL_PROT_EN_PER_VID_SET ALL_VIDS_BITMAP ∈ tr ∧
      ∃ pre2, tr = pre2 ++ [Ev.wr 0 REG_NS_V9_CTRL_PROT_EN_PER_VID_SET ALL_VIDS_BITMAP,
                            Ev.wr 0 REG_NS_V9_CFG_MPTW_ATTRIBUTE 0]) := by
  have hE : (ret, data', tr) = initialize_dev k data o enc := by
    rcases hpath with h | h <;> exact h
  have hret : (initialize_dev k data o enc).1 = 0 := by rw [← hE]; exact hok
  have htr : (initialize_dev k data o enc).2.2 = tr := by rw [← hE]
  have hdata : (initialize_dev k data o enc).2.1 = data' := by rw [← hE]
  obtain ⟨T1, T2⟩ := initialize_dev_trace k data o enc hret
  have htr' : tr = (reg_ops_init k data o).2.2 ++ enc ++
      __all_invalidation (reg_ops_init k data o).2.1 o ++
      reg_ops_set_control_regs k (reg_ops_init k data o).2.1 := by
    rw [← htr, T1]
  have hd' : data' = (reg_ops_init k data o).2.1 := by rw [← hdata, T2]
  constructor
  · rintro rfl
    refine ⟨CTRL0_ENABLE ||| CTRL0_INTERRUPT_ENABLE |||
      (if is_version (reg_ops_init .v1_v2 data o).2.1 S2MPU_VERSION_2 then
        CTRL0_FAULT_RESP_TYPE_DECERR else CTRL0_FAULT_RESP_TYPE_SLVERR),
      ?_, (ctrl0_value_bits _).1, (ctrl0_value_bits _).2, ?_, ?_⟩
    · rw [htr']
      exact set_control_regs_getLast _ _
    · intro hv1
      rw [hd'] at hv1
      have h1 : (reg_ops_init .v1_v2 data o).2.1.version &&& VERSION_CHECK_MASK =
          S2MPU_VERSION_1 := by simpa [is_version] using hv1
      have h2 : is_version (reg_ops_init .v1_v2 data o).2.1 S2MPU_VERSION_2 = false := by
        simp [is_version, h1, S2MPU_VERSION_1, S2MPU_VERSION_2]
      rw [h2]
      simp
    · intro hv2
      rw [hd'] at hv2
      rw [hv2]
      simp
  · rintro rfl
    constructor
    · rw [htr']
      rw [show reg_ops_set_control_regs .v9 (reg_ops_init .v9 data o).2.1 =
        __set_control_regs_v9 from rfl]
      simp [__set_control_regs_v9]
    · refine ⟨((reg_ops_init .v9 data o).2.2 ++ enc ++
        __all_invalidation (reg_ops_init .v9 data o).2.1 o) ++
        [Ev.wr 0 REG_NS_V9_CTRL_ERR_RESP_T_PER_VID_SET ALL_VIDS_BITMAP,
         Ev.wr 0 REG_NS_INTERRUPT_ENABLE_PER_VID_SET ALL_VIDS_BITMAP,
         Ev.wr 0 REG_NS_CTRL0 0], ?_⟩
      rw [htr']
      exact set_v9_concat _

/-- Witness for `resume_suspend_leave_device_enabled`: a successful v2
resume ends with `CTRL0 ← ENABLE | INTERRUPT_ENABLE | DECERR`. -/
theorem resume_suspend_enabled_witness :
    ∃ v, (s2mpu_resume .v1_v2 ⟨0, 0⟩ sample_oracle []).2.2.getLast? =
        some (Ev.wr 0 REG_NS_CTRL0 v) ∧
      v &&& CTRL0_ENABLE = CTRL0_ENABLE ∧
      v &&& CTRL0_INTERRUPT_ENABLE = CTRL0_INTERRUPT_ENABLE ∧
      (is_version (s2mpu_resume .v1_v2 ⟨0, 0⟩ sample_oracle []).2.1
          S2MPU_VERSION_1 = true →
        v = CTRL0_ENABLE ||| CTRL0_INTERRUPT_ENABLE ||| CTRL0_FAULT_RESP_TYPE_SLVERR) ∧
      (is_version (s2mpu_resume .v1_v2 ⟨0, 0⟩ sample_oracle []).2.1
          S2MPU_VERSION_2 = true →
        v = CTRL0_ENABLE ||| CTRL0_INTERRUPT_ENABLE ||| CTRL0_FAULT_RESP_TYPE_DECERR) :=
  (resume_suspend_leave_device_enabled .v1_v2 ⟨0, 0⟩ sample_oracle []
      (s2mpu_resume .v1_v2 ⟨0, 0⟩ sample_oracle []).1
      (s2mpu_resume .v1_v2 ⟨0, 0⟩ sample_oracle []).2.1
      (s2mpu_resume .v1_v2 ⟨0, 0⟩ sample_oracle []).2.2
      (Or.inl rfl) (by decide)).1 rfl

/-- The donation loop never touches `host_mpt` slots outside its list. -/
theorem init_loop_untouched (env : InitEnv) :
    ∀ (L : List Nat) (mpt : Nat → Fmpt) (donated : List Nat) (g : Nat), g ∉ L →
      (s2mpu_init_loop env L (mpt, donated)).2.1 g = mpt g := by
  intro L
  induction L with
  | nil => intro mpt donated g _; rfl
  | cons gb rest ih =>
    intro mpt donated g hg
    simp only [List.mem_cons, not_or] at hg
    obtain ⟨hg1, hg2⟩ := hg
    simp only [s2mpu_init_loop]
    split_ifs with h1 h2
    · rfl
    · rfl
    · rw [ih _ _ g hg2]
      simp [hg1]

/-- The recovery loop commutes with erasing one ledger entry. -/
theorem rollback_erase_comm (mpt : Nat → Fmpt) :
    ∀ (L : List Nat) (d : List Nat) (x : Nat),
      s2mpu_rollback_loop mpt L (d.erase x) = (s2mpu_rollback_loop mpt L d).erase x := by
  intro L
  induction L with
  | nil => intro d x; rfl
  | cons gb rest ih =>
    intro d x
    rcases h : (mpt gb).smpt with _ | v <;>
      simp only [s2mpu_rollback_loop, h]
    rw [List.erase_comm, ih]

/-- When the donation loop fails, the recovery loop over the same region
list returns the ledger to its pre-loop state. -/
theorem init_loop_rollback (env : InitEnv) :
    ∀ (L : List Nat) (mpt : Nat → Fmpt) (donated : List Nat),
      (∀ g ∈ L, (mpt g).smpt = none) → L.Nodup → (∀ g ∈ L, g ∉ donated) →
      (s2mpu_init_loop env L (mpt, donated)).1 ≠ 0 →
      s2mpu_rollback_loop (s2mpu_init_loop env L (mpt, donated)).2.1 L
        (s2mpu_init_loop env L (mpt, donated)).2.2 = donated := by
  intro L
  induction L with
  | nil => intro mpt donated _ _ _ hne; exact absurd rfl hne
  | cons gb rest ih =>
    intro mpt donated hfresh hnodup hdis hne
    have hgb : gb ∉ rest := (List.nodup_cons.mp hnodup).1
    simp only [s2mpu_init_loop] at hne ⊢
    split_ifs at hne ⊢ with h1 h2
    · simp only [s2mpu_rollback_loop]
      rw [hfresh gb (List.mem_cons_self gb rest)]
    · simp only [s2mpu_rollback_loop]
      rw [hfresh gb (List.mem_cons_self gb rest)]
    · set mpt1 : Nat → Fmpt := fun i => if i = gb then
        { smpt := some (env.smpt_va gb), gran_1g := true, prot := MPT_PROT_RW }
        else mpt i with hm1
      have hfresh' : ∀ g ∈ rest, (mpt1 g).smpt = none := by
        intro g hg
        have hne' : g ≠ gb := fun h => hgb (h ▸ hg)
        rw [hm1]
        simp only [hne', if_false, reduceIte]
        exact hfresh g (List.mem_cons_of_mem gb hg)
      have hnodup' := (List.nodup_cons.mp hnodup).2
      have hdis' : ∀ g ∈ rest, g ∉ donated ++ [gb] := by
        intro g hg
        have hne' : g ≠ gb := fun h => hgb (h ▸ hg)
        simp only [List.mem_append, List.mem_singleton, not_or]
        exact ⟨hdis g (List.mem_cons_of_mem gb hg), hne'⟩
      have hrec := ih mpt1 (donated ++ [gb]) hfresh' hnodup' hdis' hne
      have hentry : ((s2mpu_init_loop env rest (mpt1, donated ++ [gb])).2.1 gb).smpt =
          some (env.smpt_va gb) := by
        rw [init_loop_untouched env rest mpt1 _ gb hgb]
        rw [hm1]
        simp
      simp only [s2mpu_rollback_loop]
      rw [hentry]
      rw [rollback_erase_comm, hrec]
      rw [List.erase_append_right _
        (by simpa using hdis gb (List.mem_cons_self gb rest))]
      simp

/-- C1: whenever `s2mpu_init` fails — malformed size, unsupported
version, unknown `mpt_ops`, a misaligned SMPT buffer, or a failed
donation — at return every SMPT page donated to the hypervisor has been
returned to the host (the donation ledger is empty) and `host_mpt` is
fully zeroed. -/
theorem s2mpu_init_rollback_atomic (env : InitEnv) (size : Nat)
    (hfail : (s2mpu_init env size).1 ≠ 0) :
    (s2mpu_init env size).2.2 = [] ∧
    ∀ gb, (s2mpu_init env size).2.1 gb = zeroFmpt := by
  simp only [s2mpu_init] at hfail ⊢
  split_ifs at hfail ⊢
  all_goals
    first
      | exact ⟨rfl, fun gb => rfl⟩
      | exact absurd hfail (by assumption)
      | exact ⟨init_loop_rollback env (List.range NR_GIGABYTES) (fun _ => zeroFmpt) []
          (fun g _ => rfl) (List.nodup_range _) (fun g _ => List.not_mem_nil g)
          (by assumption), fun gb => rfl⟩

/-- Witness for `s2mpu_init_rollback_atomic`: the third SMPT buffer is
misaligned, so the two claimed regions are handed back and the MPT is
cleared. -/
theorem s2mpu_init_rollback_witness :
    (s2mpu_init
      { smpt_va := fun gb => 0x1000 * (gb + 1), pa := fun gb => if gb = 2 then 4 else 0,
        donate_ret := fun _ => 0, version := S2MPU_VERSION_2, mpt_ops_ok := true,
        smpt_size := 0x1000 } MPT_STRUCT_SIZE).2.2 = [] ∧
    ∀ gb, (s2mpu_init
      { smpt_va := fun gb => 0x1000 * (gb + 1), pa := fun gb => if gb = 2 then 4 else 0,
        donate_ret := fun _ => 0, version := S2MPU_VERSION_2, mpt_ops_ok := true,
        smpt_size := 0x1000 } MPT_STRUCT_SIZE).2.1 gb = zeroFmpt :=
  s2mpu_init_rollback_atomic
    { smpt_va := fun gb => 0x1000 * (gb + 1), pa := fun gb => if gb = 2 then 4 else 0,
      donate_ret := fun _ => 0, version := S2MPU_VERSION_2, mpt_ops_ok := true,
      smpt_size := 0x1000 } MPT_STRUCT_SIZE (by decide)

end S2mpu
